import Mathlib

/-!
Verification of the usage-detection engine of the Custom Component Monitor
(`custom_components/custom_component_monitor/sensor.py`).

The engine is embedded shallowly:
* Python strings are modelled as `List Char` (`PyStr`), with the string
  operations the source uses (`lower`, `replace`, `split`, `strip`,
  `startswith`, `endswith`) re-implemented structurally so that every
  definition is executable by the kernel.
* Parsed JSON documents are modelled by the mutual inductive `Json`.
  Persisted stores are object-shaped per the Home Assistant storage schema;
  where the Python code calls `.get` on a value, the embedding returns the
  default when the value is not an object (off-schema values, on which the
  dynamically-typed original would raise, are treated as absent), except in
  `_load_storage_file`, whose exception behaviour is modelled explicitly.
* All file-system interaction (existence probes, stat-based install dates,
  theme-file contents, JavaScript type extraction) enters through oracles in
  the `Snapshot` structure, one per helper of the source that performs I/O.
* Fallible Python code is modelled in `Except String`; an uncaught Python
  exception is an `.error` value.
-/

/-! ### Python string primitives -/

/-- A Python string, modelled as its list of characters. -/
abbrev PyStr := List Char

/-- Model of `s.startswith(pat)`. -/
def pyStartsWith : PyStr → PyStr → Bool
  | _, [] => true
  | [], _ :: _ => false
  | c :: s, p :: ps => c == p && pyStartsWith s ps

/-- Model of `s.endswith(pat)`. -/
def pyEndsWith (s pat : PyStr) : Bool :=
  pyStartsWith s.reverse pat.reverse

/-- One lowercase step of Python `str.lower` (ASCII, which covers all data
the engine compares). -/
def pyCharLower (c : Char) : Char :=
  if 'A' ≤ c && c ≤ 'Z' then Char.ofNat (c.toNat + 32) else c

/-- Model of `s.lower()`. -/
def pyToLower (s : PyStr) : PyStr := s.map pyCharLower

/-- Model of `s.split(sep)` for a one-character separator (the only form the source
uses: `'\n'`, `':'`, `'/'`, `'?'`, `'.'`). -/
def pySplitOnChar (sep : Char) : PyStr → List PyStr
  | [] => [[]]
  | c :: rest =>
    let r := pySplitOnChar sep rest
    if c == sep then [] :: r
    else
      match r with
      | [] => [[c]]
      | h :: t => (c :: h) :: t

/-- Fuel-driven worker for `pyReplace`; the fuel is the length of the
subject string, which bounds the number of steps for a nonempty pattern. -/
def pyReplaceAux (old new : PyStr) : Nat → PyStr → PyStr
  | 0, s => s
  | fuel + 1, s =>
    match s with
    | [] => []
    | c :: rest =>
      if pyStartsWith s old then new ++ pyReplaceAux old new fuel (s.drop old.length)
      else c :: pyReplaceAux old new fuel rest

/-- Model of `s.replace(old, new)` (left-to-right, non-overlapping; the source only
ever replaces nonempty patterns). -/
def pyReplace (s old new : PyStr) : PyStr :=
  pyReplaceAux old new s.length s

/-- Python whitespace for `str.strip()`. -/
def pyIsSpace (c : Char) : Bool :=
  c == ' ' || c == '\t' || c == '\n' || c == '\r' || c == '\x0b' || c == '\x0c'

/-- Model of `s.strip()`. -/
def pyTrim (s : PyStr) : PyStr :=
  ((s.dropWhile pyIsSpace).reverse.dropWhile pyIsSpace).reverse

/-- The apostrophe character (spelled via its code point). -/
def aposChar : Char := Char.ofNat 39

/-- The quote characters stripped by the theme-name extractor. -/
def pyIsQuote (c : Char) : Bool :=
  c == '"' || c == aposChar

/-- Strip double and single quotes from both ends of a string. -/
def pyStripQuotes (s : PyStr) : PyStr :=
  ((s.dropWhile pyIsQuote).reverse.dropWhile pyIsQuote).reverse

/-- Model of `full_name.split("/")[-1] if "/" in full_name else full_name`. -/
def lastSegIfSlash (s : PyStr) : PyStr :=
  if s.contains '/' then (pySplitOnChar '/' s).getLastD [] else s

/-- Model of `s.split("/")[-1]` (unconditional form used for repository names). -/
def lastSeg (s : PyStr) : PyStr :=
  (pySplitOnChar '/' s).getLastD []

/-- Order-preserving de-duplication; models the
"remove duplicates while preserving order" loops of the source. -/
def dedupAux [BEq α] (seen : List α) : List α → List α
  | [] => []
  | x :: r => if seen.contains x then dedupAux seen r else x :: dedupAux (x :: seen) r

/-- Order-preserving de-duplication entry point. -/
def dedup [BEq α] (l : List α) : List α := dedupAux [] l

/-! ### JSON documents

`Json` is mutually inductive with its list and field-list types so that all
traversals below are plain structural recursions the kernel can evaluate. -/

mutual

/-- A parsed JSON value (the result of Python's `json.load`). -/
inductive Json where
  | null
  | bool (b : Bool)
  | str (s : PyStr)
  | num (n : Int)
  | arr (elems : JsonList)
  | obj (fields : JsonFields)

/-- A JSON array body. -/
inductive JsonList where
  | nil
  | cons (hd : Json) (tl : JsonList)

/-- A JSON object body (Python dict: keys unique, insertion order kept). -/
inductive JsonFields where
  | nil
  | cons (key : PyStr) (val : Json) (tl : JsonFields)

end

/-- Lookup of a key in an object body (`dict.__getitem__` domain). -/
def JsonFields.lookup : JsonFields → PyStr → Option Json
  | .nil, _ => none
  | .cons k v t, key => if k == key then some v else t.lookup key

/-- Number of fields (only used for truthiness of dicts). -/
def JsonFields.isEmpty : JsonFields → Bool
  | .nil => true
  | .cons _ _ _ => false

/-- Model of `any` over the values of an object body. -/
def JsonFields.anyVal : JsonFields → (Json → Bool) → Bool
  | .nil, _ => false
  | .cons _ v t, p => p v || t.anyVal p

/-- Object body as an association list. -/
def JsonFields.toList : JsonFields → List (PyStr × Json)
  | .nil => []
  | .cons k v t => (k, v) :: t.toList

/-- Array emptiness (truthiness of lists). -/
def JsonList.isEmpty : JsonList → Bool
  | .nil => true
  | .cons _ _ => false

/-- Model of `any` over an array body. -/
def JsonList.anyP : JsonList → (Json → Bool) → Bool
  | .nil, _ => false
  | .cons h t, p => p h || t.anyP p

/-- Array body as a list. -/
def JsonList.toList : JsonList → List Json
  | .nil => []
  | .cons h t => h :: t.toList

/-- Model of `d.get(k)`: `none` when `d` is not an object or lacks the key. -/
def Json.get : Json → PyStr → Option Json
  | .obj fields, k => fields.lookup k
  | _, _ => none

/-- Model of `d.get(k, default)` with a JSON default. -/
def Json.getD (j : Json) (k : PyStr) (dflt : Json) : Json :=
  (j.get k).getD dflt

/-- Model of `d.get(k, default)` where the store schema types the value as a string;
a non-string (off-schema) value is treated as the default. -/
def Json.getStrD (j : Json) (k : PyStr) (dflt : PyStr) : PyStr :=
  match j.get k with
  | some (Json.str s) => s
  | _ => dflt

/-- Model of `d.get(k, [])` where the store schema types the value as a list. -/
def Json.getArrD (j : Json) (k : PyStr) : JsonList :=
  match j.get k with
  | some (Json.arr l) => l
  | _ => JsonList.nil

/-- Python truthiness of a JSON value. -/
def Json.truthy : Json → Bool
  | .null => false
  | .bool b => b
  | .str s => !s.isEmpty
  | .num n => n != 0
  | .arr xs => !xs.isEmpty
  | .obj fs => !fs.isEmpty

/-- The empty JSON object `{}`. -/
def emptyObj : Json := Json.obj JsonFields.nil

/-- Fields of an object, `.nil` otherwise (iteration over `dict.items()`). -/
def jFields : Json → JsonFields
  | .obj f => f
  | _ => JsonFields.nil

/-- Build an object body from an association list (for concrete stores). -/
def fieldsOfList : List (PyStr × Json) → JsonFields
  | [] => JsonFields.nil
  | (k, v) :: t => JsonFields.cons k v (fieldsOfList t)

/-- Build an array body from a list (for concrete stores). -/
def listOfJson : List Json → JsonList
  | [] => JsonList.nil
  | h :: t => JsonList.cons h (listOfJson t)

/-- Concrete JSON string helper. -/
def jstr (s : String) : Json := Json.str s.data

/-- Concrete JSON object helper. -/
def jobj (fields : List (String × Json)) : Json :=
  Json.obj (fieldsOfList (fields.map (fun kv => (kv.1.data, kv.2))))

/-- Concrete JSON array helper. -/
def jarr (items : List Json) : Json := Json.arr (listOfJson items)

/-! ### Storage reader (`_load_storage_file`) -/

/-- The state of one `.storage` file as the reader can encounter it. -/
inductive StoreFile where
  | absent
  | unreadable
  | undecodable
  | parseError
  | parsed (doc : Json)

/-- Model of `_load_storage_file` (sensor.py lines 45-64). An absent file, an
`OSError` while reading, or a `json.JSONDecodeError` (UTF-8 text that fails
JSON parsing, `parseError`) are caught and yield `{}`; on success the
reader returns `storage_data.get("data", {})`.  Two failure modes escape
the handler, which is scoped to
`JSONDecodeError`/`FileNotFoundError`/`OSError`: bytes that are not valid
UTF-8 (`undecodable`) raise a `UnicodeDecodeError` inside
`json.load`/`f.read`, and a file that parses to a JSON value that is not an
object makes the attribute lookup `storage_data.get` raise an
`AttributeError`. -/
def loadStorageFile : StoreFile → Except String Json
  | .absent => .ok emptyObj
  | .unreadable => .ok emptyObj
  | .undecodable => .error "UnicodeDecodeError: invalid UTF-8"
  | .parseError => .ok emptyObj
  | .parsed doc =>
    match doc with
    | Json.obj _ => .ok (doc.getD "data".data emptyObj)
    | _ => .error "AttributeError: object has no attribute get"

/-- Full-document read of a `.storage` file as done in the per-dashboard
loops (`open` + `json.load` inside a per-file `try` whose handler catches
every exception): a missing, unreadable, undecodable or unparsable file
surfaces as `none` (the caught exception). -/
def fullDoc : StoreFile → Option Json
  | .parsed doc => some doc
  | _ => none

/-! ### The configuration snapshot

One `Snapshot` fixes everything the scanner can observe: the `.storage`
directory (contents and listing) and the file-system oracles standing for
the I/O helpers of the source. -/

/-- One entry of the `themes/` directory as seen by the supplementary
scan (`_scan_themes_directory`): its name, whether it is a directory, and,
for directories, whether a glob for `*.yaml`/`*.yml` files is nonempty. -/
structure ThemesDirItem where
  name : PyStr
  isDir : Bool
  hasYamlFiles : Bool
deriving Repr, DecidableEq

/-- Read-only snapshot of persisted configuration and file system.
Paths handed to the oracles are config-directory-relative; the
absolutisation the source performs on relative HACS `local_path` values is
the identity under this convention. -/
structure Snapshot where
  /-- State of `.storage/<name>`. -/
  store : PyStr → StoreFile
  /-- Directory listing of `.storage` (files, in `iterdir` order). -/
  storageFileNames : List PyStr
  /-- `Path.exists()`. -/
  fsExists : PyStr → Bool
  /-- `Path.is_dir()`. -/
  fsIsDir : PyStr → Bool
  /-- Result of `_get_installation_date` (None on missing path or stat
  failure). -/
  installDate : PyStr → Option PyStr
  /-- Contents of the theme definition file(s) at a path: a single file
  yields one element, a directory the contents of its `*.yaml`/`*.yml`
  files, a missing path or read failure `[]` (the caught exception). -/
  themeContents : PyStr → List PyStr
  /-- Result of `_get_frontend_resource_types` on (path, resource name):
  the custom element types extracted from the JavaScript files at the path
  by the regex tiers of `_extract_types_from_js_file`; `[]` on failure. -/
  jsTypes : PyStr → PyStr → List PyStr
  /-- Entries of the `themes/` directory. -/
  themesDirItems : List ThemesDirItem

/-- Scanner instance state: the lazily-populated HACS repository cache
(`self._hacs_repositories`). -/
structure ScannerState where
  hacsRepositories : Option Json

/-- Model of `_load_hacs_repositories` (lines 66-70): load `hacs.repositories` once
and cache it on the scanner. -/
def loadHacsRepositories (snap : Snapshot) (st : ScannerState) :
    Except String (Json × ScannerState) :=
  match st.hacsRepositories with
  | some repos => .ok (repos, st)
  | none =>
    match loadStorageFile (snap.store "hacs.repositories".data) with
    | .error e => .error e
    | .ok repos => .ok (repos, { hacsRepositories := some repos })

/-- Model of `_get_configured_integrations` (lines 72-83): the set of `domain`
values of `core.config_entries` entries, excluding falsy domains and the
literal `"hacs"` (HACS itself).  The Python set is modelled by a list used
only through membership. -/
def configuredDomains (entriesData : Json) : List PyStr :=
  ((entriesData.getArrD "entries".data).toList.map
      (fun e => e.getStrD "domain".data [])).filter
    (fun d => !d.isEmpty && !(d == "hacs".data))

/-! ### Theme-name extraction (`_get_theme_names_from_file`) -/

/-- The per-line test of the extractor (lines 145-170): a line yields a
theme name when it is a non-empty, non-comment, non-document-separator,
unindented line containing a colon, and the text before the colon (trimmed,
unquoted) passes the style-variable filters. -/
def themeLineName (line : PyStr) : Option PyStr :=
  let stripped := pyTrim line
  if !stripped.isEmpty &&
      !pyStartsWith stripped "#".data &&
      !pyStartsWith stripped "---".data &&
      !pyStartsWith line " ".data &&
      !pyStartsWith line "\t".data &&
      stripped.contains ':' then
    let themeName := pyStripQuotes (pyTrim ((pySplitOnChar ':' stripped).headD []))
    if !themeName.isEmpty &&
        !pyStartsWith themeName "#".data &&
        !pyStartsWith themeName "-".data &&
        !pyStartsWith themeName "paper-".data &&
        !pyStartsWith themeName "ha-".data &&
        !pyEndsWith themeName "-color".data &&
        themeName.length < 50 then
      some themeName
    else none
  else none

/-- Theme names found in one file content (lines 142-173): the content is
split on newlines and each line is tested. -/
def themeNamesFromContent (content : PyStr) : List PyStr :=
  (pySplitOnChar '\n' content).filterMap themeLineName

/-- Model of `_get_theme_names_from_file` (lines 110-188): collect the names over
every theme file at the path and de-duplicate preserving first-seen order;
any failure yields `[]` (the function-level handler). -/
def getThemeNamesFromFile (snap : Snapshot) (path : PyStr) : List PyStr :=
  dedup ((snap.themeContents path).flatMap themeNamesFromContent)

/-! ### Theme usage (`_check_theme_in_lovelace`, `_check_theme_usage`) -/

/-- Case-insensitive equality of the source (`a.lower() == b.lower()`). -/
def ciEq (a b : PyStr) : Bool := pyToLower a == pyToLower b

mutual

/-- Model of `_check_theme_in_lovelace` (lines 403-443): non-dicts never match; a
dict matches when its `theme` key holds a matching string (or a dict one of
whose string values matches), when one of its `views` entries is a dict
whose `theme` string matches, or when the traversal of its items finds a
match.  (The theme name, constant through the recursion, is the leading
parameter.) -/
def checkThemeInLovelace (themeName : PyStr) : Json → Bool
  | Json.obj fields =>
    (match fields.lookup "theme".data with
     | some (Json.str s) => !s.isEmpty && ciEq s themeName
     | some (Json.obj tf) =>
       -- theme objects such as a selected_theme mapping
       !tf.isEmpty && tf.anyVal (fun v =>
         match v with
         | Json.str s => ciEq s themeName
         | _ => false)
     | _ => false)
    || (match fields.lookup "views".data with
        | some (Json.arr vs) =>
          vs.anyP (fun view =>
            match view with
            | Json.obj vf =>
              (match vf.lookup "theme".data with
               | some (Json.str s) => !s.isEmpty && ciEq s themeName
               | _ => false)
            | _ => false)
        | _ => false)
    || themeFieldsAny themeName fields
  | _ => false
termination_by structural config => config

/-- The `for key, value in config.items()` traversal: a string value
matches only under the `theme` key; dict values recurse; list values
recurse into their dict elements. -/
def themeFieldsAny (themeName : PyStr) : JsonFields → Bool
  | .nil => false
  | .cons k v t =>
    (match v with
     | Json.str s => k == "theme".data && ciEq s themeName
     | Json.obj g => checkThemeInLovelace themeName (Json.obj g)
     | Json.arr items => themeListAny themeName items
     | _ => false)
    || themeFieldsAny themeName t
termination_by structural f => f

/-- Model of `for item in value: if isinstance(item, dict) and recurse(item)`. -/
def themeListAny (themeName : PyStr) : JsonList → Bool
  | .nil => false
  | .cons item t =>
    (match item with
     | Json.obj g => checkThemeInLovelace themeName (Json.obj g)
     | _ => false)
    || themeListAny themeName t
termination_by structural l => l

end

/-- The default-theme check of `_check_theme_usage` (lines 339-346):
`core.config` data → `frontend` → `theme`, compared case-insensitively. -/
def defaultThemeMatches (coreConfig : Json) (themeName : PyStr) : Bool :=
  match (coreConfig.getD "frontend".data emptyObj).get "theme".data with
  | some (Json.str s) => !s.isEmpty && ciEq s themeName
  | _ => false

/-- The per-user check of `_check_theme_usage` (lines 349-355): any user of
the `auth` store whose `user_data.theme` matches case-insensitively. -/
def userThemeMatches (authData : Json) (themeName : PyStr) : Bool :=
  (authData.getArrD "users".data).anyP (fun user =>
    match (user.getD "user_data".data emptyObj).get "theme".data with
    | some (Json.str s) => !s.isEmpty && ciEq s themeName
    | _ => false)

/-- The `.storage` files visited by the theme check: every file whose name
starts with `lovelace` (lines 361-368). -/
def themeLovelaceFiles (snap : Snapshot) : List PyStr :=
  snap.storageFileNames.filter (fun n => pyStartsWith n "lovelace".data)

/-- Per-dashboard-file theme test (lines 374-398): on a parsed document,
check `data.config` and then `data`; a document whose top level or whose
`data` value is not an object makes the dynamic attribute lookup raise,
which the per-file handler catches (the file then contributes nothing). -/
def themeDocCheck (doc : Json) (themeName : PyStr) : Bool :=
  match doc with
  | Json.obj _ =>
    (match doc.getD "data".data emptyObj with
     | Json.obj df =>
       let dataSection := Json.obj df
       let configData := dataSection.getD "config".data emptyObj
       checkThemeInLovelace themeName configData
         || checkThemeInLovelace themeName dataSection
     | _ => false)
  | _ => false

/-- The dashboard-store stage of `_check_theme_usage` (lines 357-398). -/
def lovelaceThemeMatch (snap : Snapshot) (themeName : PyStr) : Bool :=
  (themeLovelaceFiles snap).any (fun fn =>
    match fullDoc (snap.store fn) with
    | some doc => themeDocCheck doc themeName
    | none => false)

/-- Model of `_check_theme_usage` (lines 334-401): default theme, then user
profiles, then every lovelace store. -/
def checkThemeUsage (snap : Snapshot) (themeName : PyStr) : Except String Bool :=
  match loadStorageFile (snap.store "core.config".data) with
  | .error e => .error e
  | .ok coreConfig =>
    if defaultThemeMatches coreConfig themeName then .ok true
    else
      match loadStorageFile (snap.store "auth".data) with
      | .error e => .error e
      | .ok authData =>
        if userThemeMatches authData themeName then .ok true
        else .ok (lovelaceThemeMatch snap themeName)

/-! ### Frontend-resource usage
(`_check_custom_type_in_lovelace`, `_check_frontend_resource_usage`,
`_is_frontend_resource_registered`, `_is_frontend_resource_used`) -/

/-- The separator-and-marker normalisation of lines 609-610:
`t.lower().replace("custom:", "").replace("-", "").replace("_", "")`. -/
def normalizeType (s : PyStr) : PyStr :=
  pyReplace (pyReplace (pyReplace (pyToLower s) "custom:".data []) "-".data [])
    "_".data []

/-- The matching rules of lines 586-613 for a (truthy, string) `type` value
against the candidate type: direct equality; equality modulo stripping a
leading marker from the candidate (also re-adding it, which is subsumed by
the direct case but kept as written); adding the marker to the current
value; and normalised comparison. -/
def typeMatches (currentType customType : PyStr) : Bool :=
  currentType == customType
  || (pyStartsWith customType "custom:".data &&
      (let shortType := customType.drop 7
       currentType == shortType
         || currentType == "custom:".data ++ shortType))
  || (!pyStartsWith currentType "custom:".data &&
      "custom:".data ++ currentType == customType)
  || normalizeType customType == normalizeType currentType

/-- The outcome of examining one node's `type` key (lines 585-613): a
falsy or absent value falls through to the items loop; a truthy string is
compared under `typeMatches`, falling through on mismatch; and a truthy
non-string value reaches `current_type.startswith` at line 602 (all `==`
comparisons against the string candidate having failed) and raises an
`AttributeError`. -/
inductive TypeKeyOutcome where
  | matched
  | fallThrough
  | raised
deriving Repr, DecidableEq

/-- Classify the `type` value of one node. -/
def typeKeyOutcome (customType : PyStr) (v : Option Json) : TypeKeyOutcome :=
  match v with
  | some (Json.str s) =>
    if !s.isEmpty && typeMatches s customType then .matched else .fallThrough
  | some w => if w.truthy then .raised else .fallThrough
  | none => .fallThrough

mutual

/-- Model of `_check_custom_type_in_lovelace` (lines 580-625): non-dicts never
match; a dict first examines its own `type` key (match returns `True`, a
truthy non-string raises), then traverses its values in order, dict values
recursing and list values recursing into their dict elements; a raise
inside the traversal propagates to the caller. -/
def checkCustomTypeInLovelace (customType : PyStr) : Json → Except String Bool
  | Json.obj fields =>
    (match typeKeyOutcome customType (fields.lookup "type".data) with
     | .matched => .ok true
     | .raised => .error "AttributeError: startswith on non-string type"
     | .fallThrough => ctFieldsAny customType fields)
  | _ => .ok false
termination_by structural config => config

/-- The `for key, value in config.items()` traversal: dict values recurse;
list values recurse into their dict elements; the first positive wins and
a raised error aborts the loop. -/
def ctFieldsAny (customType : PyStr) : JsonFields → Except String Bool
  | .nil => .ok false
  | .cons _ v t =>
    (match v with
     | Json.obj g =>
       match checkCustomTypeInLovelace customType (Json.obj g) with
       | .error e => .error e
       | .ok true => .ok true
       | .ok false => ctFieldsAny customType t
     | Json.arr items =>
       match ctListAny customType items with
       | .error e => .error e
       | .ok true => .ok true
       | .ok false => ctFieldsAny customType t
     | _ => ctFieldsAny customType t)
termination_by structural f => f

/-- Model of `for item in value: if isinstance(item, dict) and recurse(item)`,
with the same first-positive and raise-propagation behaviour. -/
def ctListAny (customType : PyStr) : JsonList → Except String Bool
  | .nil => .ok false
  | .cons item t =>
    (match item with
     | Json.obj g =>
       match checkCustomTypeInLovelace customType (Json.obj g) with
       | .error e => .error e
       | .ok true => .ok true
       | .ok false => ctListAny customType t
     | _ => ctListAny customType t)
termination_by structural l => l

end

/-- The `.storage` files visited by the frontend check (lines 538-545):
every `lovelace*` file except `lovelace_resources` and
`lovelace_dashboards`. -/
def frontendLovelaceFiles (snap : Snapshot) : List PyStr :=
  snap.storageFileNames.filter (fun n =>
    pyStartsWith n "lovelace".data &&
    !(n == "lovelace_resources".data) && !(n == "lovelace_dashboards".data))

/-- Per-dashboard-file type test (lines 552-573): on a parsed document,
check `data.config` and then `data`.  The whole body sits inside the
per-file `except Exception` handler, so an off-shape document — or an
`AttributeError` raised by a truthy non-string `type` value met during
either traversal — voids the entire file's contribution (when the
`data.config` check raises, the `data` check never runs). -/
def typeDocCheck (doc : Json) (customType : PyStr) : Bool :=
  match doc with
  | Json.obj _ =>
    (match doc.getD "data".data emptyObj with
     | Json.obj df =>
       let dataSection := Json.obj df
       let configData := dataSection.getD "config".data emptyObj
       match checkCustomTypeInLovelace customType configData with
       | .error _ => false
       | .ok true => true
       | .ok false =>
         match checkCustomTypeInLovelace customType dataSection with
         | .error _ => false
         | .ok b => b
     | _ => false)
  | _ => false

/-- Model of `_check_frontend_resource_usage` (lines 530-578): scan every dashboard
store for the candidate type. -/
def checkFrontendResourceUsage (snap : Snapshot) (customType : PyStr) : Bool :=
  (frontendLovelaceFiles snap).any (fun fn =>
    match fullDoc (snap.store fn) with
    | some doc => typeDocCheck doc customType
    | none => false)

/-- The derived URL patterns of `_is_frontend_resource_registered`
(lines 457-495): the HACS virtual-path patterns of the de-duplicated name
variants, plus (twice, as written — the second membership test compares the
bare directory name against full patterns and thus always succeeds) the
pattern of the directory taken from a `www/community/` resource path. -/
def registrationPatterns (resourceName resourcePath : PyStr) : List PyStr :=
  let base :=
    if resourceName.isEmpty then []
    else
      let lower := pyToLower resourceName
      let normalizedNames :=
        [resourceName, lower,
         pyReplace lower " ".data "-".data,
         pyReplace lower " ".data "_".data,
         pyReplace resourceName " ".data "-".data,
         pyReplace resourceName " ".data "_".data,
         pyReplace resourceName "_".data "-".data,
         pyReplace resourceName "-".data "_".data]
      (dedup normalizedNames).map
        (fun n => "/hacsfiles/".data ++ n ++ "/".data)
  if pyStartsWith resourcePath "www/community/".data then
    let communityPath := resourcePath.drop 14
    let resourceDir :=
      if communityPath.contains '/' then
        (pySplitOnChar '/' communityPath).headD []
      else communityPath
    let base1 :=
      if !resourceDir.isEmpty then
        base ++ ["/hacsfiles/".data ++ resourceDir ++ "/".data]
      else base
    if !resourceDir.isEmpty && !base1.contains resourceDir then
      base1 ++ ["/hacsfiles/".data ++ resourceDir ++ "/".data]
    else base1
  else base

/-- Model of `resource_url.split(\x27?\x27)[0]` — strip HACS tag parameters
(line 502). -/
def cleanResourceUrl (url : PyStr) : PyStr :=
  if url.contains '?' then (pySplitOnChar '?' url).headD [] else url

/-- One registered item matches when its truthy `url`, cleaned, starts with
one of the derived patterns (lines 498-507). -/
def resourceItemMatches (patterns : List PyStr) (item : Json) : Bool :=
  let url := item.getStrD "url".data []
  if url.isEmpty then false
  else patterns.any (fun pat => pyStartsWith (cleanResourceUrl url) pat)

/-- Model of `_is_frontend_resource_registered` (lines 445-512). -/
def isFrontendResourceRegistered (snap : Snapshot)
    (resourceName resourcePath : PyStr) : Except String Bool :=
  match loadStorageFile (snap.store "lovelace_resources".data) with
  | .error e => .error e
  | .ok lovelaceResources =>
    let items := lovelaceResources.getArrD "items".data
    if items.isEmpty then .ok false
    else
      .ok (items.toList.any
        (resourceItemMatches (registrationPatterns resourceName resourcePath)))

/-- First existing path of a candidate list (the name-variation probe of
lines 1120-1130). -/
def firstExisting (snap : Snapshot) : List PyStr → Option PyStr
  | [] => none
  | p :: rest => if snap.fsExists p then some p else firstExisting snap rest

/-- Resolution of the on-disk location of a frontend resource
(lines 1109-1130): a `www/community/` resource path is used directly;
otherwise `www/community/<name>` and its case/separator variations are
probed. -/
def actualResourcePath (snap : Snapshot) (resourceName resourcePath : PyStr) :
    Option PyStr :=
  if pyStartsWith resourcePath "www/community/".data then some resourcePath
  else if !resourceName.isEmpty then
    let communityPath := "www/community/".data ++ resourceName
    if snap.fsExists communityPath then some communityPath
    else
      firstExisting snap
        ["www/community/".data ++ pyToLower resourceName,
         "www/community/".data ++ pyReplace resourceName "_".data "-".data,
         "www/community/".data ++ pyReplace resourceName "-".data "_".data]
  else none

/-- The fallback candidate types of lines 1137-1155, used when no type
could be extracted: the lowercased name and its separator variants, each
also with `-card`/`_card` suffixes appended (the suffix loop iterates over
a copy of the three base patterns), first all with the `custom:` marker and
then all without. -/
def frontendFallbackTypes (resourceName : PyStr) : List PyStr :=
  let base :=
    [pyToLower resourceName,
     pyReplace (pyToLower resourceName) "_".data "-".data,
     pyReplace (pyToLower resourceName) "-".data "_".data]
  let withSuffixes :=
    base ++ base.flatMap (fun p =>
      (if !pyEndsWith p "-card".data then [p ++ "-card".data] else []) ++
      (if !pyEndsWith p "_card".data then [p ++ "_card".data] else []))
  withSuffixes.map (fun p => "custom:".data ++ p) ++ withSuffixes

/-- The candidate types checked for a resource (lines 1107-1155): the
extracted types of the resolved existing location, or the fallback
patterns when extraction produced nothing. -/
def frontendCustomTypes (snap : Snapshot) (resourceName resourcePath : PyStr) :
    List PyStr :=
  let extracted :=
    match actualResourcePath snap resourceName resourcePath with
    | some p => if snap.fsExists p then snap.jsTypes p resourceName else []
    | none => []
  if extracted.isEmpty then frontendFallbackTypes resourceName else extracted

/-! ### Installed-artifact inventory and reports -/

/-- An installed custom integration, as assembled by
`scan_custom_integrations` (lines 690-700).  The constant fields
`codeowners = []` and `hacs_status = "installed"` are kept implicitly. -/
structure IntegrationInfo where
  domain : PyStr
  name : PyStr
  documentation : PyStr
  repository : PyStr
  version : PyStr
  installedDate : Option PyStr
  hacsRepository : PyStr
deriving Repr, DecidableEq

/-- An installed theme, as assembled by `scan_custom_themes`
(lines 811-821 and 900-911). -/
structure ThemeInfo where
  name : PyStr
  file : PyStr
  fullPath : PyStr
  repository : PyStr
  documentation : PyStr
  installedDate : Option PyStr
  hacsRepository : PyStr
  hacsStatus : PyStr
  version : PyStr
deriving Repr, DecidableEq

/-- An installed frontend resource, as assembled by `scan_custom_frontend`
(lines 1023-1034).  The constant field `type = "hacs_plugin"` is kept
implicitly. -/
structure FrontendInfo where
  name : PyStr
  path : PyStr
  fullPath : PyStr
  repository : PyStr
  documentation : PyStr
  installedDate : Option PyStr
  hacsRepository : PyStr
  version : PyStr
deriving Repr, DecidableEq

/-- A per-kind scan report: `{"total": ..., "used": [...], "unused": [...]}`. -/
structure Report (α : Type) where
  total : Nat
  used : List α
  unused : List α
deriving Repr, DecidableEq

/-- The used/unused classification loop shared by the three scans: walk the
inventory in order, appending each artifact to the bucket its (fallible)
usage check selects; a raised check aborts the scan. -/
def partitionM (p : α → Except String Bool) : List α → Except String (List α × List α)
  | [] => .ok ([], [])
  | x :: rest =>
    match p x with
    | .error e => .error e
    | .ok b =>
      match partitionM p rest with
      | .error e => .error e
      | .ok (u, n) => .ok (if b then (x :: u, n) else (u, x :: n))

/-- The documentation-URL resolution shared by the three scans
(e.g. lines 657-663): the manifest's `documentation` with the repository
URL as dict-lookup default; a non-dict manifest falls back to the
repository URL (empty when there is no repository). -/
def docUrlOf (repoManifest : Json) (repoUrl : PyStr) : PyStr :=
  match repoManifest with
  | Json.obj _ =>
    (match repoManifest.get "documentation".data with
     | some (Json.str s) => s
     | some _ => []
     | none => repoUrl)
  | _ => repoUrl

/-- Domain resolution for an integration repository entry (lines 642-647):
the explicit `domain` field, else the manifest `domain`. -/
def integrationDomainOf (repo : Json) : PyStr :=
  let domain0 := repo.getStrD "domain".data []
  if domain0.isEmpty then
    match repo.get "repository_manifest".data with
    | some (Json.obj mf) => (Json.obj mf).getStrD "domain".data []
    | _ => []
  else domain0

/-- Model of `scan_custom_integrations` inventory step for one repository entry
(lines 634-700).  Returns `none` for entries that are not installed
integrations or whose domain cannot be determined. -/
def integrationOfRepo (snap : Snapshot) (repo : Json) : Option IntegrationInfo :=
  if repo.getStrD "category".data [] == "integration".data &&
      (repo.getD "installed".data Json.null).truthy then
    let domain := integrationDomainOf repo
    if domain.isEmpty then none
    else
      let fullName := repo.getStrD "full_name".data []
      let repoUrl :=
        if fullName.isEmpty then [] else "https://github.com/".data ++ fullName
      let repoManifest := repo.getD "repository_manifest".data emptyObj
      let docUrl := docUrlOf repoManifest repoUrl
      let name0 := repo.getStrD "name".data []
      let name1 :=
        if name0.isEmpty then
          match repoManifest with
          | Json.obj _ =>
            (match repoManifest.get "name".data with
             | some (Json.str s) => s
             | some _ => []
             | none => domain)
          | _ => name0
        else name0
      let name := if name1.isEmpty then domain else name1
      let localPath := repo.getStrD "local_path".data []
      let installDate :=
        match snap.installDate ("custom_components/".data ++ domain) with
        | some d => some d
        | none => if localPath.isEmpty then none else snap.installDate localPath
      some { domain := domain, name := name, documentation := docUrl,
             repository := repoUrl,
             version := repo.getStrD "version_installed".data "unknown".data,
             installedDate := installDate, hacsRepository := fullName }
  else none

/-- The display-name resolution shared by the theme and frontend scans
(lines 745-757): the HACS `name`, else the manifest `name`, else the last
path segment of the repository name. -/
def displayNameOf (repo : Json) (repoManifest : Json) (fullName : PyStr) : PyStr :=
  let name0 := repo.getStrD "name".data []
  let name1 :=
    match repoManifest with
    | Json.obj _ =>
      if name0.isEmpty then
        (match repoManifest.get "name".data with
         | some (Json.str s) => s
         | _ => [])
      else name0
    | _ => name0
  if name1.isEmpty && !fullName.isEmpty then lastSegIfSlash fullName else name1

/-- The theme install-date pattern probe (lines 796-809): for each pattern,
try `themes/<pattern>` as a directory, then `themes/<pattern>.yaml` as a
file; the first hit wins. -/
def themePatternProbe (snap : Snapshot) : List PyStr → Option (Option PyStr × PyStr)
  | [] => none
  | p :: rest =>
    let dirPath := "themes/".data ++ p
    if snap.fsExists dirPath && snap.fsIsDir dirPath then
      some (snap.installDate dirPath, dirPath)
    else
      let filePath := "themes/".data ++ p ++ ".yaml".data
      if snap.fsExists filePath then some (snap.installDate filePath, filePath)
      else themePatternProbe snap rest

/-- Model of `scan_custom_themes` inventory step for one repository entry
(lines 730-821).  The `list(set(...))` of the probe patterns has
unspecified (but per-process fixed) order in Python; it is modelled as
first-seen order. -/
def themeOfRepo (snap : Snapshot) (repo : Json) : Option ThemeInfo :=
  if repo.getStrD "category".data [] == "theme".data &&
      (repo.getD "installed".data Json.null).truthy then
    let fullName := repo.getStrD "full_name".data []
    let repoUrl :=
      if fullName.isEmpty then [] else "https://github.com/".data ++ fullName
    let repoManifest := repo.getD "repository_manifest".data emptyObj
    let docUrl := docUrlOf repoManifest repoUrl
    let displayName := displayNameOf repo repoManifest fullName
    let localPath := repo.getStrD "local_path".data []
    let haveLocal := !localPath.isEmpty && snap.fsExists localPath
    let installDate0 := if haveLocal then snap.installDate localPath else none
    let themeFilePath0 := if haveLocal then localPath else []
    let (installDate, themeFilePath) :=
      match installDate0 with
      | some d => (some d, themeFilePath0)
      | none =>
        if snap.fsExists "themes".data then
          let repoThemeName :=
            if fullName.contains '/' then (pySplitOnChar '/' fullName).getLastD []
            else []
          let patterns :=
            dedup ([repoThemeName, displayName, pyToLower displayName].filter
              (fun p => !p.isEmpty))
          match themePatternProbe snap patterns with
          | some (d, p) => (d, p)
          | none => (none, themeFilePath0)
        else (none, themeFilePath0)
    some { name := displayName, file := themeFilePath, fullPath := localPath,
           repository := repoUrl, documentation := docUrl,
           installedDate := installDate, hacsRepository := fullName,
           hacsStatus := "installed".data,
           version := repo.getStrD "version_installed".data "unknown".data }
  else none

/-- Model of `Path.suffix` for a plain file name (last dotted part including the
dot; a lone leading dot or a trailing dot yields no suffix). -/
def pathSuffix (name : PyStr) : PyStr :=
  let parts := pySplitOnChar '.' name
  match parts with
  | [] => []
  | [_] => []
  | _ =>
    let lastPart := parts.getLastD []
    if (parts.length == 2 && (parts.headD []).isEmpty) || lastPart.isEmpty then []
    else '.' :: lastPart

/-- Model of `Path.stem`: the name without its suffix. -/
def pathStem (name : PyStr) : PyStr :=
  name.take (name.length - (pathSuffix name).length)

/-- The de-duplication keys the supplementary theme scan collects from the
HACS themes (lines 827-856). -/
def hacsThemeNames (hacsThemes : List ThemeInfo) : List PyStr :=
  hacsThemes.filterMap (fun t =>
    if t.name.isEmpty then none else some (pyToLower t.name))

/-- The HACS theme file paths (for `hacs_theme_paths`). -/
def hacsThemePaths (hacsThemes : List ThemeInfo) : List PyStr :=
  hacsThemes.filterMap (fun t => if t.file.isEmpty then none else some t.file)

/-- The HACS theme directory names (for `hacs_directories`): second path
component of each theme file under `themes/`, plus the lowercased last
segment of each repository name. -/
def hacsThemeDirs (hacsThemes : List ThemeInfo) : List PyStr :=
  hacsThemes.filterMap (fun t =>
    if t.file.isEmpty then none
    else
      let parts := pySplitOnChar '/' t.file
      if parts.length > 1 && parts.headD [] == "themes".data then
        some (pyToLower (parts.getD 1 []))
      else none)
  ++ hacsThemes.filterMap (fun t =>
    if t.hacsRepository.isEmpty then none
    else some (pyToLower (lastSeg t.hacsRepository)))

/-- The HACS repository-name keys (for `hacs_repo_names`): lowercased last
segment, plus all lowercased segments when the name contains a slash. -/
def hacsRepoNames (hacsThemes : List ThemeInfo) : List PyStr :=
  hacsThemes.flatMap (fun t =>
    if t.hacsRepository.isEmpty then []
    else
      pyToLower (lastSeg t.hacsRepository) ::
        (if t.hacsRepository.contains '/' then
          pySplitOnChar '/' (pyToLower t.hacsRepository)
        else []))

/-- The supplementary `themes/` directory scan (lines 823-911): directories
containing YAML files and loose YAML files not already covered by a HACS
theme (by path, directory name, display name or repository name) are added
as manual themes. -/
def nonHacsThemes (snap : Snapshot) (hacsThemes : List ThemeInfo) : List ThemeInfo :=
  if snap.fsExists "themes".data then
    let names := hacsThemeNames hacsThemes
    let paths := hacsThemePaths hacsThemes
    let dirs := hacsThemeDirs hacsThemes
    let repoNames := hacsRepoNames hacsThemes
    snap.themesDirItems.filterMap (fun item =>
      if item.isDir then
        if item.hasYamlFiles then
          let relPath := "themes/".data ++ item.name
          let dirNameLower := pyToLower item.name
          if !paths.contains relPath && !dirs.contains dirNameLower &&
              !names.contains dirNameLower && !repoNames.contains dirNameLower then
            some { name := item.name, file := relPath, fullPath := relPath,
                   repository := [], documentation := [],
                   installedDate := snap.installDate relPath,
                   hacsRepository := [], hacsStatus := "manual".data,
                   version := "unknown".data }
          else none
        else none
      else
        if pathSuffix item.name == ".yaml".data ||
            pathSuffix item.name == ".yml".data then
          let themeName := pathStem item.name
          let relPath := "themes/".data ++ item.name
          let themeNameLower := pyToLower themeName
          if !paths.contains relPath && !names.contains themeNameLower &&
              !repoNames.contains themeNameLower then
            some { name := themeName, file := relPath, fullPath := relPath,
                   repository := [], documentation := [],
                   installedDate := snap.installDate relPath,
                   hacsRepository := [], hacsStatus := "manual".data,
                   version := "unknown".data }
          else none
        else none)
  else []

/-- The frontend install-date pattern probe (lines 1007-1013): for each
pattern, try `www/community/<pattern>` as a directory; the first hit wins. -/
def frontendPatternProbe (snap : Snapshot) :
    List PyStr → Option (Option PyStr × PyStr)
  | [] => none
  | p :: rest =>
    let dirPath := "www/community/".data ++ p
    if snap.fsExists dirPath && snap.fsIsDir dirPath then
      some (snap.installDate dirPath, dirPath)
    else frontendPatternProbe snap rest

/-- Model of `scan_custom_frontend` inventory step for one repository entry
(lines 943-1034). -/
def frontendOfRepo (snap : Snapshot) (repo : Json) : Option FrontendInfo :=
  if repo.getStrD "category".data [] == "plugin".data &&
      (repo.getD "installed".data Json.null).truthy then
    let fullName := repo.getStrD "full_name".data []
    let repoUrl :=
      if fullName.isEmpty then [] else "https://github.com/".data ++ fullName
    let repoManifest := repo.getD "repository_manifest".data emptyObj
    let docUrl := docUrlOf repoManifest repoUrl
    let displayName := displayNameOf repo repoManifest fullName
    let localPath := repo.getStrD "local_path".data []
    let haveLocal := !localPath.isEmpty && snap.fsExists localPath
    let installDate0 := if haveLocal then snap.installDate localPath else none
    let resourcePath0 := if haveLocal then localPath else []
    let (installDate1, resourcePath1) :=
      match installDate0 with
      | some d => (some d, resourcePath0)
      | none =>
        if snap.fsExists "www/community".data then
          let repoResourceName :=
            if fullName.contains '/' then (pySplitOnChar '/' fullName).getLastD []
            else []
          let patterns :=
            dedup (List.filter (fun (p : PyStr) => !p.isEmpty)
              [repoResourceName, displayName, pyToLower displayName])
          match frontendPatternProbe snap patterns with
          | some (d, p) => (d, p)
          | none => (none, resourcePath0)
        else (none, resourcePath0)
    let (installDate, resourcePath) :=
      match installDate1 with
      | some d => (some d, resourcePath1)
      | none =>
        if !displayName.isEmpty && snap.fsExists ("www/".data ++ displayName) then
          (snap.installDate ("www/".data ++ displayName),
           if resourcePath1.isEmpty then "www/".data ++ displayName
           else resourcePath1)
        else (none, resourcePath1)
    some { name := displayName, path := resourcePath, fullPath := localPath,
           repository := repoUrl, documentation := docUrl,
           installedDate := installDate, hacsRepository := fullName,
           version := repo.getStrD "version_installed".data "unknown".data }
  else none

/-! ### Per-artifact classification entry points -/

/-- Model of `any` of `_check_theme_usage` over a list of names, with short-circuit
on the first positive (the loop of lines 1085-1087). -/
def anyThemeUsed (snap : Snapshot) : List PyStr → Except String Bool
  | [] => .ok false
  | n :: rest =>
    match checkThemeUsage snap n with
    | .error e => .error e
    | .ok true => .ok true
    | .ok false => anyThemeUsed snap rest

/-- The candidate names for a theme (lines 1063-1082): the names extracted
from the theme file (preferring `file` over `full_path`), falling back to
the display name when extraction yields nothing. -/
def themeCandidateNames (snap : Snapshot) (theme : ThemeInfo) : List PyStr :=
  let names0 :=
    if !theme.file.isEmpty then getThemeNamesFromFile snap theme.file
    else if !theme.fullPath.isEmpty then getThemeNamesFromFile snap theme.fullPath
    else []
  if names0.isEmpty then [theme.name] else names0

/-- Model of `_is_theme_used` (lines 1057-1089). -/
def isThemeUsed (snap : Snapshot) (theme : ThemeInfo) : Except String Bool :=
  if theme.name.isEmpty then .ok false
  else anyThemeUsed snap (themeCandidateNames snap theme)

/-- Model of `_is_frontend_resource_used` (lines 1091-1166): an empty display name
short-circuits to unused; an unregistered resource short-circuits to
unused; otherwise any candidate type found in a dashboard store makes the
resource used. -/
def isFrontendResourceUsed (snap : Snapshot) (r : FrontendInfo) :
    Except String Bool :=
  if r.name.isEmpty then .ok false
  else
    match isFrontendResourceRegistered snap r.name r.path with
    | .error e => .error e
    | .ok false => .ok false
    | .ok true =>
      .ok ((frontendCustomTypes snap r.name r.path).any
        (fun ct => checkFrontendResourceUsage snap ct))

/-! ### Scan orchestration -/

/-- The installed-integration inventory built from the repository store. -/
def integrationInventory (snap : Snapshot) (repos : Json) : List IntegrationInfo :=
  (jFields repos).toList.filterMap (fun kv => integrationOfRepo snap kv.2)

/-- The integration part of a scan, given the loaded HACS repositories
(lines 632-721). -/
def integrationsWith (snap : Snapshot) (repos : Json) :
    Except String (Report IntegrationInfo) :=
  let installed := integrationInventory snap repos
  match loadStorageFile (snap.store "core.config_entries".data) with
  | .error e => .error e
  | .ok entriesData =>
    let domains := configuredDomains entriesData
    match partitionM (fun i => .ok (domains.contains i.domain)) installed with
    | .error e => .error e
    | .ok (used, unused) =>
      .ok { total := installed.length, used := used, unused := unused }

/-- The HACS-installed theme inventory built from the repository store. -/
def hacsThemeInventory (snap : Snapshot) (repos : Json) : List ThemeInfo :=
  (jFields repos).toList.filterMap (fun kv => themeOfRepo snap kv.2)

/-- The full theme inventory: HACS themes plus the supplementary
directory scan. -/
def themeInventory (snap : Snapshot) (repos : Json) : List ThemeInfo :=
  hacsThemeInventory snap repos
    ++ nonHacsThemes snap (hacsThemeInventory snap repos)

/-- The theme part of a scan, given the loaded HACS repositories
(lines 728-929). -/
def themesWith (snap : Snapshot) (repos : Json) :
    Except String (Report ThemeInfo) :=
  let installed := themeInventory snap repos
  match partitionM (isThemeUsed snap) installed with
  | .error e => .error e
  | .ok (used, unused) =>
    .ok { total := installed.length, used := used, unused := unused }

/-- The installed frontend-resource inventory built from the repository
store. -/
def frontendInventory (snap : Snapshot) (repos : Json) : List FrontendInfo :=
  (jFields repos).toList.filterMap (fun kv => frontendOfRepo snap kv.2)

/-- The frontend part of a scan, given the loaded HACS repositories
(lines 936-1055). -/
def frontendWith (snap : Snapshot) (repos : Json) :
    Except String (Report FrontendInfo) :=
  let installed := frontendInventory snap repos
  match partitionM (isFrontendResourceUsed snap) installed with
  | .error e => .error e
  | .ok (used, unused) =>
    .ok { total := installed.length, used := used, unused := unused }

/-- Model of `scan_custom_integrations` (lines 627-721), threading the repository
cache. -/
def scanCustomIntegrations (snap : Snapshot) (st : ScannerState) :
    Except String (Report IntegrationInfo × ScannerState) :=
  match loadHacsRepositories snap st with
  | .error e => .error e
  | .ok (repos, st') =>
    match integrationsWith snap repos with
    | .error e => .error e
    | .ok rep => .ok (rep, st')

/-- Model of `scan_custom_themes` (lines 723-929), threading the repository cache. -/
def scanCustomThemes (snap : Snapshot) (st : ScannerState) :
    Except String (Report ThemeInfo × ScannerState) :=
  match loadHacsRepositories snap st with
  | .error e => .error e
  | .ok (repos, st') =>
    match themesWith snap repos with
    | .error e => .error e
    | .ok rep => .ok (rep, st')

/-- Model of `scan_custom_frontend` (lines 931-1055), threading the repository
cache. -/
def scanCustomFrontend (snap : Snapshot) (st : ScannerState) :
    Except String (Report FrontendInfo × ScannerState) :=
  match loadHacsRepositories snap st with
  | .error e => .error e
  | .ok (repos, st') =>
    match frontendWith snap repos with
    | .error e => .error e
    | .ok rep => .ok (rep, st')

/-- The aggregated report of one scan cycle (`_async_update_data`,
lines 1181-1206; the wall-clock `last_scan` stamp is external and
omitted). -/
structure ScanResult where
  integrations : Report IntegrationInfo
  themes : Report ThemeInfo
  frontend : Report FrontendInfo
deriving Repr, DecidableEq

/-- One scan cycle: the three scans in order, threading the repository
cache; any uncaught exception surfaces as the single wrapped failure of
the cycle. -/
def runScan (snap : Snapshot) (st : ScannerState) :
    Except String (ScanResult × ScannerState) :=
  match scanCustomIntegrations snap st with
  | .error e => .error e
  | .ok (ints, st1) =>
    match scanCustomThemes snap st1 with
    | .error e => .error e
    | .ok (thms, st2) =>
      match scanCustomFrontend snap st2 with
      | .error e => .error e
      | .ok (fes, st3) =>
        .ok ({ integrations := ints, themes := thms, frontend := fes }, st3)

/-! ### Specification-side definitions

`specThemeMentioned` renders the specification wording of the theme rule —
the value of a `theme` key *at any nesting depth* inside a store — for
comparison with the traversal the code actually performs;
`restrictedThemeAppears` renders the amended wording (descent through
object values and through objects that are immediate array elements
only). -/

mutual

/-- Spec wording: a `theme` key whose string value matches
case-insensitively occurs somewhere in the tree, at any nesting depth,
through arbitrary object and array nesting. -/
def specThemeMentioned (themeName : PyStr) : Json → Bool
  | Json.obj fields => specFieldsMention themeName fields
  | Json.arr items => specListMentions themeName items
  | _ => false
termination_by structural j => j

/-- Field traversal of `specThemeMentioned`. -/
def specFieldsMention (themeName : PyStr) : JsonFields → Bool
  | .nil => false
  | .cons k v t =>
    (k == "theme".data &&
      (match v with
       | Json.str s => ciEq s themeName
       | _ => false))
    || specThemeMentioned themeName v
    || specFieldsMention themeName t
termination_by structural f => f

/-- Array traversal of `specThemeMentioned`. -/
def specListMentions (themeName : PyStr) : JsonList → Bool
  | .nil => false
  | .cons item t =>
    specThemeMentioned themeName item || specListMentions themeName t
termination_by structural l => l

end

mutual

/-- Amended wording: a matching `theme` key reachable from an object by
descending through object values and through objects that are immediate
elements of arrays (arrays nested directly inside arrays are not
traversed). -/
def restrictedThemeAppears (themeName : PyStr) : Json → Bool
  | Json.obj fields => restrictedFieldsAppear themeName fields
  | _ => false
termination_by structural j => j

/-- Field traversal of `restrictedThemeAppears`. -/
def restrictedFieldsAppear (themeName : PyStr) : JsonFields → Bool
  | .nil => false
  | .cons k v t =>
    (k == "theme".data &&
      (match v with
       | Json.str s => ciEq s themeName
       | _ => false))
    || (match v with
        | Json.obj g => restrictedThemeAppears themeName (Json.obj g)
        | Json.arr items => restrictedListAppears themeName items
        | _ => false)
    || restrictedFieldsAppear themeName t
termination_by structural f => f

/-- Array traversal of `restrictedThemeAppears`: only object elements are
entered. -/
def restrictedListAppears (themeName : PyStr) : JsonList → Bool
  | .nil => false
  | .cons item t =>
    (match item with
     | Json.obj g => restrictedThemeAppears themeName (Json.obj g)
     | _ => false)
    || restrictedListAppears themeName t
termination_by structural l => l

end

mutual

/-- Spec wording for the frontend reference check: some `type` key whose
truthy string value matches the candidate under the code's own matching
rules occurs somewhere in the tree, at any nesting depth. -/
def specTypeMentioned (customType : PyStr) : Json → Bool
  | Json.obj fields =>
    (match fields.lookup "type".data with
     | some (Json.str s) => !s.isEmpty && typeMatches s customType
     | _ => false)
    || specTypeFieldsMention customType fields
  | Json.arr items => specTypeListMentions customType items
  | _ => false
termination_by structural j => j

/-- Field traversal of `specTypeMentioned`. -/
def specTypeFieldsMention (customType : PyStr) : JsonFields → Bool
  | .nil => false
  | .cons _ v t =>
    specTypeMentioned customType v || specTypeFieldsMention customType t
termination_by structural f => f

/-- Array traversal of `specTypeMentioned`. -/
def specTypeListMentions (customType : PyStr) : JsonList → Bool
  | .nil => false
  | .cons item t =>
    specTypeMentioned customType item || specTypeListMentions customType t
termination_by structural l => l

end

/-- The `data` section of a dashboard store document as the theme and
frontend checks read it (`full_data.get("data", {})`). -/
def docDataSection (doc : Json) : Json :=
  match doc with
  | Json.obj _ => doc.getD "data".data emptyObj
  | _ => emptyObj

/-- The snapshot with every `.storage` file that fails to read or parse
removed from the directory listing (the stores themselves unchanged).
Classification being invariant under this transform expresses that failed
dashboard files contribute nothing and do not disturb the scan. -/
def parsedOnly (snap : Snapshot) : Snapshot :=
  { snap with
    storageFileNames :=
      snap.storageFileNames.filter (fun n => (fullDoc (snap.store n)).isSome) }

/-! ### Concrete snapshots for witnesses and counterexamples -/

/-- A configuration with no stores, no files and no themes directory. -/
def emptySnapshot : Snapshot :=
  { store := fun _ => StoreFile.absent
    storageFileNames := []
    fsExists := fun _ => false
    fsIsDir := fun _ => false
    installDate := fun _ => none
    themeContents := fun _ => []
    jsTypes := fun _ _ => []
    themesDirItems := [] }

/-- The entries-registry data of the HACS-domain scenario: one active
config entry whose domain is `hacs`. -/
def hacsEntriesData : Json :=
  jobj [("entries", jarr [jobj [("domain", jstr "hacs")]])]

/-- HACS repository store holding one installed integration with domain
`hacs`. -/
def hacsReposData : Json :=
  jobj [("hacs/integration",
    jobj [("category", jstr "integration"), ("installed", Json.bool true),
          ("domain", jstr "hacs")])]

/-- Snapshot for the HACS-domain scenario: the integration `hacs` is
installed via HACS and `core.config_entries` records an active `hacs`
entry. -/
def hacsCexSnapshot : Snapshot :=
  { emptySnapshot with
    store := fun n =>
      if n == "hacs.repositories".data then
        StoreFile.parsed (jobj [("data", hacsReposData)])
      else if n == "core.config_entries".data then
        StoreFile.parsed (jobj [("data", hacsEntriesData)])
      else StoreFile.absent }

/-- The inventory record the scan builds for the `hacs` integration. -/
def hacsIntegrationInfo : IntegrationInfo :=
  { domain := "hacs".data, name := "hacs".data, documentation := [],
    repository := [], version := "unknown".data, installedDate := none,
    hacsRepository := [] }

/-- HACS repository store holding one installed frontend plugin with no
resolvable display name (no `name`, no manifest, no `full_name`). -/
def namelessPluginRepos : Json :=
  jobj [("broken/plugin",
    jobj [("category", jstr "plugin"), ("installed", Json.bool true)])]

/-- Snapshot for the malformed frontend-resource scenario. -/
def namelessPluginSnapshot : Snapshot :=
  { emptySnapshot with
    store := fun n =>
      if n == "hacs.repositories".data then
        StoreFile.parsed (jobj [("data", namelessPluginRepos)])
      else StoreFile.absent }

/-- The inventory record the scan builds for the nameless plugin. -/
def namelessFrontendInfo : FrontendInfo :=
  { name := [], path := [], fullPath := [], repository := [],
    documentation := [], installedDate := none, hacsRepository := [],
    version := "unknown".data }

/-- A dashboard store whose `theme` key sits inside an array nested
directly inside an array (under `data.config`). -/
def arrayNestedDoc : Json :=
  jobj [("data",
    jobj [("config",
      jobj [("x", jarr [jarr [jobj [("theme", jstr "blackout")]]])])])]

/-- Snapshot with `arrayNestedDoc` as the only dashboard store. -/
def arrayNestedSnapshot : Snapshot :=
  { emptySnapshot with
    store := fun n =>
      if n == "lovelace.dash".data then StoreFile.parsed arrayNestedDoc
      else StoreFile.absent
    storageFileNames := ["lovelace.dash".data] }

/-- The installed theme `Blackout` of the array-nesting scenario (no theme
file resolved, so its display name is the single candidate). -/
def blackoutTheme : ThemeInfo :=
  { name := "Blackout".data, file := [], fullPath := [], repository := [],
    documentation := [], installedDate := none, hacsRepository := [],
    hacsStatus := "installed".data, version := "unknown".data }

/-- Snapshot whose recorded default theme is `blackout`. -/
def defaultThemeSnapshot : Snapshot :=
  { emptySnapshot with
    store := fun n =>
      if n == "core.config".data then
        StoreFile.parsed
          (jobj [("data", jobj [("frontend", jobj [("theme", jstr "blackout")])])])
      else StoreFile.absent }

/-- The `core.config` data of `defaultThemeSnapshot`. -/
def defaultThemeCoreConfig : Json :=
  jobj [("frontend", jobj [("theme", jstr "blackout")])]

/-- Snapshot for the registered-and-referenced frontend resource: the
resource `mycard` is registered under `/hacsfiles/mycard/mycard.js` and a
dashboard uses `type: custom:mycard`. -/
def myCardSnapshot : Snapshot :=
  { emptySnapshot with
    store := fun n =>
      if n == "lovelace_resources".data then
        StoreFile.parsed
          (jobj [("data",
            jobj [("items",
              jarr [jobj [("url", jstr "/hacsfiles/mycard/mycard.js")]])])])
      else if n == "lovelace.dash".data then
        StoreFile.parsed
          (jobj [("data",
            jobj [("config",
              jobj [("views",
                jarr [jobj [("cards",
                  jarr [jobj [("type", jstr "custom:mycard")]])]])])])])
      else StoreFile.absent
    storageFileNames := ["lovelace_resources".data, "lovelace.dash".data] }

/-- The installed resource `mycard` of that scenario. -/
def myCardResource : FrontendInfo :=
  { name := "mycard".data, path := [], fullPath := [], repository := [],
    documentation := [], installedDate := none, hacsRepository := [],
    version := "unknown".data }

/-- A dashboard store whose `data.config` holds, in order, a node with a
truthy non-string `type` value and then a node whose `type` matches
`custom:mycard`. -/
def mixedTypeDoc : Json :=
  jobj [("data", jobj [("config",
    jobj [("a", jobj [("type", Json.num 1)]),
          ("b", jobj [("type", jstr "custom:mycard")])])])]

/-- Snapshot for the voided-file scenario: `mycard` is registered and
`mixedTypeDoc` is the only dashboard store. -/
def mixedTypeSnapshot : Snapshot :=
  { emptySnapshot with
    store := fun n =>
      if n == "lovelace_resources".data then
        StoreFile.parsed
          (jobj [("data",
            jobj [("items",
              jarr [jobj [("url", jstr "/hacsfiles/mycard/mycard.js")]])])])
      else if n == "lovelace.dash".data then StoreFile.parsed mixedTypeDoc
      else StoreFile.absent
    storageFileNames := ["lovelace_resources".data, "lovelace.dash".data] }

/-- The file content of the theme-extraction example: the two lines
`mytheme:` and an indented `primary-color` style variable. -/
def myThemeContent : PyStr :=
  "mytheme:\n  primary-color: \"#fff\"\n".data

/-- Snapshot whose themes directory holds one theme file with
`myThemeContent`. -/
def myThemeSnapshot : Snapshot :=
  { emptySnapshot with
    themeContents := fun p =>
      if p == "themes/mytheme.yaml".data then [myThemeContent] else [] }

/-- The partition invariant of a report: there is an inventory whose length
is the reported total, the two buckets exhaust it, every inventory artifact
lies in exactly one bucket, and the buckets contain only inventory
artifacts. -/
def reportPartitions {α : Type} (rep : Report α) : Prop :=
  ∃ inv : List α,
    rep.total = inv.length ∧
    rep.used.length + rep.unused.length = inv.length ∧
    (∀ a, a ∈ inv → (a ∈ rep.used ∧ a ∉ rep.unused) ∨
      (a ∈ rep.unused ∧ a ∉ rep.used)) ∧
    (∀ a, a ∈ rep.used → a ∈ inv) ∧ (∀ a, a ∈ rep.unused → a ∈ inv)

/-! ### Helper lemmas -/

theorem partitionM_spec {α : Type} (p : α → Except String Bool) :
    ∀ (l u n : List α), partitionM p l = .ok (u, n) →
      u.length + n.length = l.length ∧
      (∀ a, a ∈ u → p a = .ok true) ∧
      (∀ a, a ∈ n → p a = .ok false) ∧
      (∀ a, a ∈ l → a ∈ u ∨ a ∈ n) ∧
      (∀ a, a ∈ u → a ∈ l) ∧ (∀ a, a ∈ n → a ∈ l) := by
  intro l
  induction l with
  | nil =>
    intro u n h
    simp only [partitionM, Except.ok.injEq, Prod.mk.injEq] at h
    obtain ⟨hu, hn⟩ := h
    subst hu; subst hn
    simp
  | cons x rest ih =>
    intro u n h
    simp only [partitionM] at h
    cases hp : p x with
    | error e => rw [hp] at h; exact absurd h (by simp)
    | ok b =>
      rw [hp] at h
      cases hr : partitionM p rest with
      | error e => rw [hr] at h; exact absurd h (by simp)
      | ok un =>
        obtain ⟨u', n'⟩ := un
        rw [hr] at h
        obtain ⟨hlen, hu, hn, hcov, huin, hnin⟩ := ih u' n' hr
        cases b with
        | true =>
          simp only [Except.ok.injEq, Prod.mk.injEq, if_true] at h
          obtain ⟨h1, h2⟩ := h
          subst h1; subst h2
          refine ⟨by simp only [List.length_cons]; omega, ?_, ?_, ?_, ?_, ?_⟩
          · intro a ha
            rcases List.mem_cons.mp ha with h | h
            · subst h; exact hp
            · exact hu a h
          · intro a ha; exact hn a ha
          · intro a ha
            rcases List.mem_cons.mp ha with h | h
            · subst h; exact Or.inl (List.mem_cons_self _ _)
            · rcases hcov a h with h' | h'
              · exact Or.inl (List.mem_cons_of_mem _ h')
              · exact Or.inr h'
          · intro a ha
            rcases List.mem_cons.mp ha with h | h
            · subst h; exact List.mem_cons_self _ _
            · exact List.mem_cons_of_mem _ (huin a h)
          · intro a ha; exact List.mem_cons_of_mem _ (hnin a ha)
        | false =>
          simp only [Except.ok.injEq, Prod.mk.injEq, Bool.false_eq_true,
            if_false] at h
          obtain ⟨h1, h2⟩ := h
          subst h1; subst h2
          refine ⟨by simp only [List.length_cons]; omega, ?_, ?_, ?_, ?_, ?_⟩
          · intro a ha; exact hu a ha
          · intro a ha
            rcases List.mem_cons.mp ha with h | h
            · subst h; exact hp
            · exact hn a h
          · intro a ha
            rcases List.mem_cons.mp ha with h | h
            · subst h; exact Or.inr (List.mem_cons_self _ _)
            · rcases hcov a h with h' | h'
              · exact Or.inl h'
              · exact Or.inr (List.mem_cons_of_mem _ h')
          · intro a ha; exact List.mem_cons_of_mem _ (huin a ha)
          · intro a ha
            rcases List.mem_cons.mp ha with h | h
            · subst h; exact List.mem_cons_self _ _
            · exact List.mem_cons_of_mem _ (hnin a h)

/-- A partitioned report satisfies the partition invariant. -/
theorem partitionM_reportPartitions {α : Type} (p : α → Except String Bool)
    (inv u n : List α) (h : partitionM p inv = .ok (u, n)) :
    reportPartitions { total := inv.length, used := u, unused := n } := by
  obtain ⟨hlen, hu, hn, hcov, huin, hnin⟩ := partitionM_spec p inv u n h
  refine ⟨inv, rfl, hlen, ?_, huin, hnin⟩
  intro a ha
  rcases hcov a ha with h' | h'
  · refine Or.inl ⟨h', fun hcontra => ?_⟩
    have h1 := hu a h'
    have h2 := hn a hcontra
    rw [h1] at h2
    exact absurd h2 (by simp)
  · refine Or.inr ⟨h', fun hcontra => ?_⟩
    have h1 := hu a hcontra
    have h2 := hn a h'
    rw [h1] at h2
    exact absurd h2 (by simp)

/-- Successful integration scans factor through the repository load and the
with-repositories body. -/
theorem scanIntegrations_ok (snap : Snapshot) (st : ScannerState)
    (rep : Report IntegrationInfo) (st' : ScannerState)
    (h : scanCustomIntegrations snap st = .ok (rep, st')) :
    ∃ repos, loadHacsRepositories snap st = .ok (repos, st') ∧
      integrationsWith snap repos = .ok rep := by
  rw [scanCustomIntegrations] at h
  split at h
  · exact absurd h (by simp)
  · rename_i repos st'' hl
    split at h
    · exact absurd h (by simp)
    · rename_i rep' hw
      simp only [Except.ok.injEq, Prod.mk.injEq] at h
      obtain ⟨h1, h2⟩ := h
      subst h1; subst h2
      exact ⟨repos, hl, hw⟩

/-- Successful theme scans factor likewise. -/
theorem scanThemes_ok (snap : Snapshot) (st : ScannerState)
    (rep : Report ThemeInfo) (st' : ScannerState)
    (h : scanCustomThemes snap st = .ok (rep, st')) :
    ∃ repos, loadHacsRepositories snap st = .ok (repos, st') ∧
      themesWith snap repos = .ok rep := by
  rw [scanCustomThemes] at h
  split at h
  · exact absurd h (by simp)
  · rename_i repos st'' hl
    split at h
    · exact absurd h (by simp)
    · rename_i rep' hw
      simp only [Except.ok.injEq, Prod.mk.injEq] at h
      obtain ⟨h1, h2⟩ := h
      subst h1; subst h2
      exact ⟨repos, hl, hw⟩

/-- Successful frontend scans factor likewise. -/
theorem scanFrontend_ok (snap : Snapshot) (st : ScannerState)
    (rep : Report FrontendInfo) (st' : ScannerState)
    (h : scanCustomFrontend snap st = .ok (rep, st')) :
    ∃ repos, loadHacsRepositories snap st = .ok (repos, st') ∧
      frontendWith snap repos = .ok rep := by
  rw [scanCustomFrontend] at h
  split at h
  · exact absurd h (by simp)
  · rename_i repos st'' hl
    split at h
    · exact absurd h (by simp)
    · rename_i rep' hw
      simp only [Except.ok.injEq, Prod.mk.injEq] at h
      obtain ⟨h1, h2⟩ := h
      subst h1; subst h2
      exact ⟨repos, hl, hw⟩

/-- A successful with-repositories integration body consists of the
entries-registry load and the inventory partition. -/
theorem integrationsWith_ok (snap : Snapshot) (repos : Json)
    (rep : Report IntegrationInfo) (h : integrationsWith snap repos = .ok rep) :
    ∃ ed used unused,
      loadStorageFile (snap.store "core.config_entries".data) = .ok ed ∧
      partitionM (fun i => .ok ((configuredDomains ed).contains i.domain))
        (integrationInventory snap repos) = .ok (used, unused) ∧
      rep = { total := (integrationInventory snap repos).length,
              used := used, unused := unused } := by
  simp only [integrationsWith] at h
  split at h
  · exact absurd h (by simp)
  · rename_i ed hed
    split at h
    · exact absurd h (by simp)
    · rename_i u n hun
      simp only [Except.ok.injEq] at h
      exact ⟨ed, u, n, hed, hun, h.symm⟩

/-- A successful with-repositories theme body is the inventory partition. -/
theorem themesWith_ok (snap : Snapshot) (repos : Json)
    (rep : Report ThemeInfo) (h : themesWith snap repos = .ok rep) :
    ∃ used unused,
      partitionM (isThemeUsed snap) (themeInventory snap repos) =
        .ok (used, unused) ∧
      rep = { total := (themeInventory snap repos).length,
              used := used, unused := unused } := by
  simp only [themesWith] at h
  split at h
  · exact absurd h (by simp)
  · rename_i u n hun
    simp only [Except.ok.injEq] at h
    exact ⟨u, n, hun, h.symm⟩

/-- A successful with-repositories frontend body is the inventory
partition. -/
theorem frontendWith_ok (snap : Snapshot) (repos : Json)
    (rep : Report FrontendInfo) (h : frontendWith snap repos = .ok rep) :
    ∃ used unused,
      partitionM (isFrontendResourceUsed snap) (frontendInventory snap repos) =
        .ok (used, unused) ∧
      rep = { total := (frontendInventory snap repos).length,
              used := used, unused := unused } := by
  simp only [frontendWith] at h
  split at h
  · exact absurd h (by simp)
  · rename_i u n hun
    simp only [Except.ok.injEq] at h
    exact ⟨u, n, hun, h.symm⟩

/-! ### Claim theorems -/

/-- Claim C1: for every scan of every artifact kind (integrations, themes,
frontend resources), the returned report satisfies
`total == len(used) + len(unused)`, and every installed artifact in the
inventory appears in exactly one of the two buckets. -/
theorem claim1_scan_reports_partition (snap : Snapshot) (st : ScannerState) :
    (∀ rep st', scanCustomIntegrations snap st = .ok (rep, st') →
      reportPartitions rep) ∧
    (∀ rep st', scanCustomThemes snap st = .ok (rep, st') →
      reportPartitions rep) ∧
    (∀ rep st', scanCustomFrontend snap st = .ok (rep, st') →
      reportPartitions rep) := by
  refine ⟨?_, ?_, ?_⟩
  · intro rep st' h
    obtain ⟨repos, _, hw⟩ := scanIntegrations_ok snap st rep st' h
    obtain ⟨ed, u, n, _, hp, hrep⟩ := integrationsWith_ok snap repos rep hw
    subst hrep
    exact partitionM_reportPartitions _ _ u n hp
  · intro rep st' h
    obtain ⟨repos, _, hw⟩ := scanThemes_ok snap st rep st' h
    obtain ⟨u, n, hp, hrep⟩ := themesWith_ok snap repos rep hw
    subst hrep
    exact partitionM_reportPartitions _ _ u n hp
  · intro rep st' h
    obtain ⟨repos, _, hw⟩ := scanFrontend_ok snap st rep st' h
    obtain ⟨u, n, hp, hrep⟩ := frontendWith_ok snap repos rep hw
    subst hrep
    exact partitionM_reportPartitions _ _ u n hp

/-- Witness for C1 at a concrete successful scan (the empty
configuration). -/
theorem claim1_witness :
    reportPartitions ({ total := 0, used := [], unused := [] } :
      Report IntegrationInfo) :=
  (claim1_scan_reports_partition emptySnapshot ⟨none⟩).1
    { total := 0, used := [], unused := [] } ⟨some emptyObj⟩ rfl

/-- Claim C5, counterexample: a store file whose bytes are not valid
UTF-8 is malformed content, yet the load raises (a `UnicodeDecodeError`
escapes the handler, which catches only
`JSONDecodeError`/`FileNotFoundError`/`OSError`) instead of returning an
empty mapping — refuting "never raises on malformed content". -/
theorem claim5_counterexample :
    loadStorageFile StoreFile.undecodable =
      .error "UnicodeDecodeError: invalid UTF-8" := rfl

/-- Claim C5, amended: for every store name, the storage-reader load
operation returns an empty mapping — and never raises — whenever the store
file is absent, unreadable (OS read error), or holds UTF-8 text that fails
JSON parsing; a store in one of those states never aborts a scan.
(Content that is not decodable as UTF-8 instead raises an uncaught
`UnicodeDecodeError` and aborts the scan.) -/
theorem claim5_load_tolerates_failure (f : StoreFile)
    (h : f = StoreFile.absent ∨ f = StoreFile.unreadable ∨
      f = StoreFile.parseError) :
    loadStorageFile f = .ok emptyObj := by
  rcases h with h | h | h <;> subst h <;> rfl

/-- Witness for the amended C5 at the parse-failure case. -/
theorem claim5_witness : loadStorageFile StoreFile.parseError = .ok emptyObj :=
  claim5_load_tolerates_failure StoreFile.parseError (Or.inr (Or.inr rfl))

/-- Claim C7: theme identifier extraction applied to a file whose content
is the two lines `mytheme:` and an indented `primary-color` style variable
returns exactly `["mytheme"]`: only the top-level unindented key is kept
and the style-variable line is excluded. -/
theorem claim7_theme_extraction_example :
    themeNamesFromContent myThemeContent = ["mytheme".data] ∧
    getThemeNamesFromFile myThemeSnapshot "themes/mytheme.yaml".data =
      ["mytheme".data] :=
  ⟨rfl, rfl⟩

/-- Membership in the configured-domain set, in terms of the raw entries of
the registry store. -/
theorem configuredDomains_mem (ed : Json) (d : PyStr) :
    d ∈ configuredDomains ed ↔
      (d ≠ [] ∧ d ≠ "hacs".data ∧
        ∃ e ∈ (ed.getArrD "entries".data).toList,
          Json.getStrD e "domain".data [] = d) := by
  unfold configuredDomains
  constructor
  · intro hd
    obtain ⟨hmem, hp⟩ := List.mem_filter.mp hd
    obtain ⟨e, he, hfe⟩ := List.mem_map.mp hmem
    simp only [Bool.and_eq_true, Bool.not_eq_true'] at hp
    obtain ⟨hp1, hp2⟩ := hp
    refine ⟨?_, ?_, e, he, hfe⟩
    · intro hcontra
      rw [hcontra] at hp1
      simp at hp1
    · intro hcontra
      rw [hcontra] at hp2
      simp at hp2
  · rintro ⟨hne, hnh, e, he, hfe⟩
    refine List.mem_filter.mpr ⟨List.mem_map.mpr ⟨e, he, hfe⟩, ?_⟩
    simp only [Bool.and_eq_true, Bool.not_eq_true']
    constructor
    · cases hd : d.isEmpty
      · rfl
      · exact absurd (List.isEmpty_iff.mp hd) hne
    · cases hd : d == "hacs".data
      · rfl
      · exact absurd (eq_of_beq hd) hnh

/-- Artifacts in the integration inventory always carry a nonempty
domain. -/
theorem integrationInventory_domain_ne (snap : Snapshot) (repos : Json)
    (a : IntegrationInfo) (ha : a ∈ integrationInventory snap repos) :
    a.domain ≠ [] := by
  unfold integrationInventory at ha
  obtain ⟨kv, _, hkv⟩ := List.mem_filterMap.mp ha
  unfold integrationOfRepo at hkv
  split at hkv
  · simp only at hkv
    split at hkv
    · exact absurd hkv (by simp)
    · rename_i hdom
      simp only [Option.some.injEq] at hkv
      subst hkv
      simp only [ne_eq]
      intro hcontra
      rw [hcontra] at hdom
      simp at hdom
  · exact absurd hkv (by simp)

/-- Claim C2, counterexample: the integration `hacs`, installed via HACS
with an active `hacs` config entry recorded in `core.config_entries`, is
classified unused although its domain appears among the recorded entry
domains — refuting "used iff the domain appears in the entries-registry
store". -/
theorem claim2_counterexample :
    loadStorageFile (hacsCexSnapshot.store "core.config_entries".data) =
      .ok hacsEntriesData ∧
    (∃ e ∈ (hacsEntriesData.getArrD "entries".data).toList,
      Json.getStrD e "domain".data [] = "hacs".data) ∧
    scanCustomIntegrations hacsCexSnapshot ⟨none⟩ =
      .ok ({ total := 1, used := [], unused := [hacsIntegrationInfo] },
        ⟨some hacsReposData⟩) ∧
    hacsIntegrationInfo.domain = "hacs".data :=
  ⟨rfl,
    ⟨jobj [("domain", jstr "hacs")],
      show _ ∈ [jobj [("domain", jstr "hacs")]] from
        List.mem_singleton.mpr rfl, rfl⟩,
    rfl, rfl⟩

/-- Claim C2, amended: an installed integration is classified used iff its
domain is not the excluded literal `hacs` and appears among the entry
domains recorded in `core.config_entries`; content extraction plays no
part (the classification reads only the entries registry). -/
theorem claim2_amended_integration_used_iff (snap : Snapshot)
    (st : ScannerState) (rep : Report IntegrationInfo) (st' : ScannerState)
    (ed : Json)
    (hscan : scanCustomIntegrations snap st = .ok (rep, st'))
    (hed : loadStorageFile (snap.store "core.config_entries".data) = .ok ed)
    (a : IntegrationInfo) (ha : a ∈ rep.used ∨ a ∈ rep.unused) :
    a ∈ rep.used ↔
      (a.domain ≠ "hacs".data ∧
        ∃ e ∈ (ed.getArrD "entries".data).toList,
          Json.getStrD e "domain".data [] = a.domain) := by
  obtain ⟨repos, _, hw⟩ := scanIntegrations_ok snap st rep st' hscan
  obtain ⟨ed', u, n, hed', hp, hrep⟩ := integrationsWith_ok snap repos rep hw
  have hee : ed' = ed := by
    rw [hed'] at hed
    injection hed
  rw [hee] at hp
  subst hrep
  obtain ⟨_, hu, hn, _, huin, hnin⟩ := partitionM_spec _ _ u n hp
  simp only at ha ⊢
  have hdom : a.domain ≠ [] := by
    rcases ha with h | h
    · exact integrationInventory_domain_ne snap repos a (huin a h)
    · exact integrationInventory_domain_ne snap repos a (hnin a h)
  constructor
  · intro hau
    have := hu a hau
    simp only [Except.ok.injEq] at this
    have hmem := List.elem_iff.mp this
    have := (configuredDomains_mem ed a.domain).mp hmem
    exact ⟨this.2.1, this.2.2⟩
  · rintro ⟨hnh, e, he, hfe⟩
    rcases ha with h | h
    · exact h
    · exfalso
      have := hn a h
      simp only [Except.ok.injEq] at this
      have hmem : a.domain ∈ configuredDomains ed :=
        (configuredDomains_mem ed a.domain).mpr ⟨hdom, hnh, e, he, hfe⟩
      have helem : (configuredDomains ed).contains a.domain = true :=
        List.elem_iff.mpr hmem
      rw [helem] at this
      exact absurd this (by simp)

/-- Witness for the amended C2 at the HACS-domain scenario: the `hacs`
integration sits in the unused bucket, and the amended equivalence denies
it membership in the used bucket. -/
theorem claim2_witness :
    hacsIntegrationInfo ∉
      ({ total := 1, used := [], unused := [hacsIntegrationInfo] } :
        Report IntegrationInfo).used := by
  have h := claim2_amended_integration_used_iff hacsCexSnapshot ⟨none⟩
    { total := 1, used := [], unused := [hacsIntegrationInfo] }
    ⟨some hacsReposData⟩ hacsEntriesData rfl rfl hacsIntegrationInfo
    (Or.inr (by simp))
  intro hcontra
  have := h.mp hcontra
  exact this.1 (by decide)

/-- Claim C10: the configured-domain set computed by the integration scan
never contains `hacs`, so an installed artifact with domain `hacs` is
always classified unused, even when an active `hacs` config entry
exists. -/
theorem claim10_hacs_always_unused :
    (∀ ed : Json, "hacs".data ∉ configuredDomains ed) ∧
    (∀ (snap : Snapshot) (st : ScannerState) (rep : Report IntegrationInfo)
      (st' : ScannerState) (a : IntegrationInfo),
      scanCustomIntegrations snap st = .ok (rep, st') →
      (a ∈ rep.used ∨ a ∈ rep.unused) → a.domain = "hacs".data →
      a ∈ rep.unused ∧ a ∉ rep.used) := by
  have hnotin : ∀ ed : Json, "hacs".data ∉ configuredDomains ed := by
    intro ed hcontra
    have := (configuredDomains_mem ed "hacs".data).mp hcontra
    exact this.2.1 rfl
  refine ⟨hnotin, ?_⟩
  intro snap st rep st' a hscan ha hdom
  obtain ⟨repos, _, hw⟩ := scanIntegrations_ok snap st rep st' hscan
  obtain ⟨ed, u, n, _, hp, hrep⟩ := integrationsWith_ok snap repos rep hw
  subst hrep
  obtain ⟨_, hu, hn, _, _, _⟩ := partitionM_spec _ _ u n hp
  simp only at ha ⊢
  have hnu : a ∉ u := by
    intro hcontra
    have := hu a hcontra
    simp only [Except.ok.injEq] at this
    have hmem := List.elem_iff.mp this
    rw [hdom] at hmem
    exact hnotin ed hmem
  rcases ha with h | h
  · exact absurd h hnu
  · exact ⟨h, hnu⟩

/-- Witness for C10 at the HACS-domain scenario. -/
theorem claim10_witness :
    hacsIntegrationInfo ∈
      ({ total := 1, used := [], unused := [hacsIntegrationInfo] } :
        Report IntegrationInfo).unused ∧
    hacsIntegrationInfo ∉
      ({ total := 1, used := [], unused := [hacsIntegrationInfo] } :
        Report IntegrationInfo).used :=
  claim10_hacs_always_unused.2 hacsCexSnapshot ⟨none⟩
    { total := 1, used := [], unused := [hacsIntegrationInfo] }
    ⟨some hacsReposData⟩ hacsIntegrationInfo rfl (Or.inr (by simp)) rfl

/-- Claim C9, counterexample: the inventory entry produced for an
installed plugin with no resolvable display name has an empty identifier,
yet it appears in the unused bucket and counts toward the report total
(total = 1) — refuting "skipped: appears in neither bucket and does not
count". -/
theorem claim9_counterexample :
    scanCustomFrontend namelessPluginSnapshot ⟨none⟩ =
      .ok ({ total := 1, used := [], unused := [namelessFrontendInfo] },
        ⟨some namelessPluginRepos⟩) ∧
    namelessFrontendInfo.name = [] :=
  ⟨rfl, rfl⟩

/-- Claim C9, amended: a frontend inventory entry with an empty identifier
is never classified used — its usage checks are skipped and it is placed
in the unused bucket, still counting toward the total. -/
theorem claim9_amended_empty_name_unused :
    (∀ (snap : Snapshot) (r : FrontendInfo), r.name = [] →
      isFrontendResourceUsed snap r = .ok false) ∧
    (∀ (snap : Snapshot) (st : ScannerState) (rep : Report FrontendInfo)
      (st' : ScannerState) (a : FrontendInfo),
      scanCustomFrontend snap st = .ok (rep, st') →
      (a ∈ rep.used ∨ a ∈ rep.unused) → a.name = [] →
      a ∈ rep.unused ∧ a ∉ rep.used) := by
  have hfirst : ∀ (snap : Snapshot) (r : FrontendInfo), r.name = [] →
      isFrontendResourceUsed snap r = .ok false := by
    intro snap r hr
    unfold isFrontendResourceUsed
    rw [hr]
    rfl
  refine ⟨hfirst, ?_⟩
  intro snap st rep st' a hscan ha hname
  obtain ⟨repos, _, hw⟩ := scanFrontend_ok snap st rep st' hscan
  obtain ⟨u, n, hp, hrep⟩ := frontendWith_ok snap repos rep hw
  subst hrep
  obtain ⟨_, hu, hn, _, _, _⟩ := partitionM_spec _ _ u n hp
  simp only at ha ⊢
  have hnu : a ∉ u := by
    intro hcontra
    have := hu a hcontra
    rw [hfirst snap a hname] at this
    exact absurd this (by simp)
  rcases ha with h | h
  · exact absurd h hnu
  · exact ⟨h, hnu⟩

/-- Witness for the amended C9 at the nameless-plugin scenario. -/
theorem claim9_witness :
    namelessFrontendInfo ∈
      ({ total := 1, used := [], unused := [namelessFrontendInfo] } :
        Report FrontendInfo).unused ∧
    namelessFrontendInfo ∉
      ({ total := 1, used := [], unused := [namelessFrontendInfo] } :
        Report FrontendInfo).used :=
  claim9_amended_empty_name_unused.2 namelessPluginSnapshot ⟨none⟩
    { total := 1, used := [], unused := [namelessFrontendInfo] }
    ⟨some namelessPluginRepos⟩ namelessFrontendInfo rfl (Or.inr (by simp)) rfl

/-- Claim C3, counterexample: the registered resource `mycard` has the
fallback identifier `custom:mycard`, and that identifier matches a `type`
key inside the only dashboard store — yet the resource is classified
unused, because the traversal meets a truthy non-string `type` value
first, raises, and the per-file handler voids the whole file's
contribution.  This refutes "used iff registered and some identifier
matches a type key in some dashboard store". -/
theorem claim3_counterexample :
    myCardResource.name ≠ [] ∧
    isFrontendResourceRegistered mixedTypeSnapshot myCardResource.name
      myCardResource.path = .ok true ∧
    "custom:mycard".data ∈
      frontendCustomTypes mixedTypeSnapshot myCardResource.name
        myCardResource.path ∧
    "lovelace.dash".data ∈ frontendLovelaceFiles mixedTypeSnapshot ∧
    fullDoc (mixedTypeSnapshot.store "lovelace.dash".data) =
      some mixedTypeDoc ∧
    specTypeMentioned "custom:mycard".data mixedTypeDoc = true ∧
    isFrontendResourceUsed mixedTypeSnapshot myCardResource = .ok false :=
  ⟨by decide, rfl, by decide,
    show _ ∈ ["lovelace.dash".data] from List.mem_singleton.mpr rfl,
    rfl, rfl, rfl⟩

/-- Claim C3, amended: for every installed frontend resource with a
(well-formed) nonempty identifier, classification is the two-stage gate:
used iff the resource passes the registration gate and the per-file
dashboard scan finds some extracted-or-fallback candidate type — where a
dashboard file's whole contribution is voided when the scan meets a truthy
non-string `type` value before a match in that file (the raised error is
caught per file); absence from the registration store short-circuits to
unused, and a registered but never-referenced resource is unused. -/
theorem claim3_frontend_two_stage_gate (snap : Snapshot) (r : FrontendInfo)
    (b : Bool) (hname : r.name ≠ [])
    (h : isFrontendResourceUsed snap r = .ok b) :
    ∃ reg, isFrontendResourceRegistered snap r.name r.path = .ok reg ∧
      b = (reg && (frontendCustomTypes snap r.name r.path).any
        (fun ct => checkFrontendResourceUsage snap ct)) := by
  unfold isFrontendResourceUsed at h
  have hne : r.name.isEmpty = false := by
    cases hh : r.name.isEmpty
    · rfl
    · exact absurd (List.isEmpty_iff.mp hh) hname
  rw [hne] at h
  simp only [Bool.false_eq_true, if_false] at h
  split at h
  · exact absurd h (by simp)
  · rename_i hreg
    injection h with h
    exact ⟨false, hreg, by rw [← h]; simp⟩
  · rename_i hreg
    injection h with h
    exact ⟨true, hreg, by rw [Bool.true_and]; exact h.symm⟩

/-- Witness for C3 at the registered-and-referenced `mycard` scenario. -/
theorem claim3_witness :
    ∃ reg, isFrontendResourceRegistered myCardSnapshot myCardResource.name
        myCardResource.path = .ok reg ∧
      true = (reg && (frontendCustomTypes myCardSnapshot myCardResource.name
        myCardResource.path).any
        (fun ct => checkFrontendResourceUsage myCardSnapshot ct)) :=
  claim3_frontend_two_stage_gate myCardSnapshot myCardResource true
    (by decide) rfl

/-- A fresh (uncached) repository load that succeeds populates the cache
with exactly the loaded value. -/
theorem loadHacs_fresh (snap : Snapshot) (repos : Json) (st' : ScannerState)
    (h : loadHacsRepositories snap ⟨none⟩ = .ok (repos, st')) :
    loadStorageFile (snap.store "hacs.repositories".data) = .ok repos ∧
      st' = ⟨some repos⟩ := by
  unfold loadHacsRepositories at h
  simp only at h
  split at h
  · exact absurd h (by simp)
  · rename_i r hr
    simp only [Except.ok.injEq, Prod.mk.injEq] at h
    obtain ⟨h1, h2⟩ := h
    subst h1; subst h2
    exact ⟨hr, rfl⟩

/-- With a populated cache, the integration scan is the pure
with-repositories body. -/
theorem scanIntegrations_cached (snap : Snapshot) (repos : Json)
    (rep : Report IntegrationInfo)
    (hw : integrationsWith snap repos = .ok rep) :
    scanCustomIntegrations snap ⟨some repos⟩ = .ok (rep, ⟨some repos⟩) := by
  unfold scanCustomIntegrations loadHacsRepositories
  simp [hw]

/-- With a populated cache, the theme scan is the pure with-repositories
body. -/
theorem scanThemes_cached (snap : Snapshot) (repos : Json)
    (rep : Report ThemeInfo) (hw : themesWith snap repos = .ok rep) :
    scanCustomThemes snap ⟨some repos⟩ = .ok (rep, ⟨some repos⟩) := by
  unfold scanCustomThemes loadHacsRepositories
  simp [hw]

/-- With a populated cache, the frontend scan is the pure with-repositories
body. -/
theorem scanFrontend_cached (snap : Snapshot) (repos : Json)
    (rep : Report FrontendInfo) (hw : frontendWith snap repos = .ok rep) :
    scanCustomFrontend snap ⟨some repos⟩ = .ok (rep, ⟨some repos⟩) := by
  unfold scanCustomFrontend loadHacsRepositories
  simp [hw]

/-- Claim C8: running the scanner again against unchanged stores and
file system — from the scanner state the first successful cycle left
behind — produces the identical report (and state): the scan is
deterministic in its inputs, and the repository cache preserves this. -/
theorem claim8_scan_idempotent (snap : Snapshot) (r1 : ScanResult)
    (st1 : ScannerState) (h : runScan snap ⟨none⟩ = .ok (r1, st1)) :
    runScan snap st1 = .ok (r1, st1) := by
  unfold runScan at h
  split at h
  · exact absurd h (by simp)
  · rename_i ints sta hs1
    split at h
    · exact absurd h (by simp)
    · rename_i thms stb hs2
      split at h
      · exact absurd h (by simp)
      · rename_i fes stc hs3
        simp only [Except.ok.injEq, Prod.mk.injEq] at h
        obtain ⟨h1, h2⟩ := h
        subst h1; subst h2
        obtain ⟨repos, hl1, hw1⟩ := scanIntegrations_ok snap ⟨none⟩ ints sta hs1
        obtain ⟨_, hsta⟩ := loadHacs_fresh snap repos sta hl1
        subst hsta
        obtain ⟨repos2, hl2, hw2⟩ :=
          scanThemes_ok snap ⟨some repos⟩ thms stb hs2
        have hc : loadHacsRepositories snap ⟨some repos⟩ =
            .ok (repos, ⟨some repos⟩) := rfl
        rw [hc] at hl2
        simp only [Except.ok.injEq, Prod.mk.injEq] at hl2
        obtain ⟨he1, he2⟩ := hl2
        subst he1; subst he2
        obtain ⟨repos3, hl3, hw3⟩ :=
          scanFrontend_ok snap ⟨some repos⟩ fes stc hs3
        rw [hc] at hl3
        simp only [Except.ok.injEq, Prod.mk.injEq] at hl3
        obtain ⟨he1, he2⟩ := hl3
        subst he1; subst he2
        unfold runScan
        simp only [scanIntegrations_cached snap repos ints hw1,
          scanThemes_cached snap repos thms hw2,
          scanFrontend_cached snap repos fes hw3]

/-- Witness for C8 at the empty configuration. -/
theorem claim8_witness :
    runScan emptySnapshot ⟨some emptyObj⟩ =
      .ok ({ integrations := { total := 0, used := [], unused := [] },
             themes := { total := 0, used := [], unused := [] },
             frontend := { total := 0, used := [], unused := [] } },
        ⟨some emptyObj⟩) :=
  claim8_scan_idempotent emptySnapshot
    { integrations := { total := 0, used := [], unused := [] },
      themes := { total := 0, used := [], unused := [] },
      frontend := { total := 0, used := [], unused := [] } }
    ⟨some emptyObj⟩ rfl

/-- A conjunct that only ever rules out elements on which the tested
predicate is false anyway can be dropped from an `any`. -/
theorem any_and_redundant {α : Type} (q g : α → Bool) (l : List α)
    (h : ∀ a, q a = false → g a = false) :
    (l.any fun a => q a && g a) = l.any g := by
  induction l with
  | nil => rfl
  | cons x r ih =>
    simp only [List.any_cons, ih]
    congr 1
    cases hq : q x
    · rw [h x hq]; simp
    · simp

/-- Filtering out elements on which the tested predicate is anyway false
does not change an `any`. -/
theorem filter_comm_any {α : Type} (p q f : α → Bool) (l : List α)
    (hqf : ∀ a, q a = false → f a = false) :
    ((l.filter q).filter p).any f = (l.filter p).any f := by
  rw [List.any_filter, List.any_filter, List.any_filter]
  exact any_and_redundant q (fun a => p a && f a) l
    (fun a ha => by simp only []; rw [hqf a ha]; simp)

/-- The transform `parsedOnly` leaves the store contents untouched. -/
theorem parsedOnly_store (snap : Snapshot) :
    (parsedOnly snap).store = snap.store := rfl

/-- The dashboard-store theme stage sees exactly the successfully parsed
files: removing failed reads from the listing does not change it. -/
theorem lovelaceThemeMatch_parsedOnly (snap : Snapshot) (name : PyStr) :
    lovelaceThemeMatch (parsedOnly snap) name = lovelaceThemeMatch snap name := by
  show ((snap.storageFileNames.filter
      (fun n => (fullDoc (snap.store n)).isSome)).filter
      (fun n => pyStartsWith n "lovelace".data)).any
      (fun fn => match fullDoc (snap.store fn) with
        | some doc => themeDocCheck doc name
        | none => false) =
    (snap.storageFileNames.filter
      (fun n => pyStartsWith n "lovelace".data)).any
      (fun fn => match fullDoc (snap.store fn) with
        | some doc => themeDocCheck doc name
        | none => false)
  apply filter_comm_any
  intro a ha
  cases hd : fullDoc (snap.store a) with
  | none => simp [hd]
  | some d => rw [hd] at ha; simp at ha

/-- The dashboard-store type stage likewise sees exactly the parsed
files. -/
theorem checkFrontendResourceUsage_parsedOnly (snap : Snapshot) (ct : PyStr) :
    checkFrontendResourceUsage (parsedOnly snap) ct =
      checkFrontendResourceUsage snap ct := by
  show ((snap.storageFileNames.filter
      (fun n => (fullDoc (snap.store n)).isSome)).filter
      (fun n => pyStartsWith n "lovelace".data &&
        !(n == "lovelace_resources".data) &&
        !(n == "lovelace_dashboards".data))).any
      (fun fn => match fullDoc (snap.store fn) with
        | some doc => typeDocCheck doc ct
        | none => false) =
    (snap.storageFileNames.filter
      (fun n => pyStartsWith n "lovelace".data &&
        !(n == "lovelace_resources".data) &&
        !(n == "lovelace_dashboards".data))).any
      (fun fn => match fullDoc (snap.store fn) with
        | some doc => typeDocCheck doc ct
        | none => false)
  apply filter_comm_any
  intro a ha
  cases hd : fullDoc (snap.store a) with
  | none => simp [hd]
  | some d => rw [hd] at ha; simp at ha

/-- Whole-identifier theme usage is invariant under dropping failed
reads. -/
theorem checkThemeUsage_parsedOnly (snap : Snapshot) (name : PyStr) :
    checkThemeUsage (parsedOnly snap) name = checkThemeUsage snap name := by
  unfold checkThemeUsage
  rw [parsedOnly_store, lovelaceThemeMatch_parsedOnly]

/-- Candidate-list theme usage is invariant under dropping failed reads. -/
theorem anyThemeUsed_parsedOnly (snap : Snapshot) :
    ∀ names, anyThemeUsed (parsedOnly snap) names = anyThemeUsed snap names
  | [] => rfl
  | n :: rest => by
    unfold anyThemeUsed
    rw [checkThemeUsage_parsedOnly]
    cases checkThemeUsage snap n with
    | error e => rfl
    | ok b =>
      cases b with
      | true => rfl
      | false => exact anyThemeUsed_parsedOnly snap rest

/-- Theme classification is invariant under dropping failed reads. -/
theorem isThemeUsed_parsedOnly (snap : Snapshot) (t : ThemeInfo) :
    isThemeUsed (parsedOnly snap) t = isThemeUsed snap t := by
  unfold isThemeUsed
  rw [show themeCandidateNames (parsedOnly snap) t =
    themeCandidateNames snap t from rfl]
  rw [anyThemeUsed_parsedOnly]

/-- Frontend-resource classification is invariant under dropping failed
reads. -/
theorem isFrontendResourceUsed_parsedOnly (snap : Snapshot) (r : FrontendInfo) :
    isFrontendResourceUsed (parsedOnly snap) r = isFrontendResourceUsed snap r := by
  unfold isFrontendResourceUsed
  rw [show isFrontendResourceRegistered (parsedOnly snap) r.name r.path =
    isFrontendResourceRegistered snap r.name r.path from rfl]
  rw [show frontendCustomTypes (parsedOnly snap) r.name r.path =
    frontendCustomTypes snap r.name r.path from rfl]
  simp only [checkFrontendResourceUsage_parsedOnly]

/-- Claim C6: a file-read or parse failure of any dashboard store is caught
per file and contributes nothing: classification of every artifact is
exactly what the successfully parsed stores alone determine, so one
malformed dashboard file neither changes any classification derived from
the other valid files nor aborts the scan of other artifacts (an
extraction failure enters as an empty extraction result, which falls back
to identifier-less handling by definition of `themeCandidateNames` and
`frontendCustomTypes`). -/
theorem claim6_failed_reads_isolated (snap : Snapshot) :
    (∀ r : FrontendInfo,
      isFrontendResourceUsed (parsedOnly snap) r = isFrontendResourceUsed snap r) ∧
    (∀ t : ThemeInfo, isThemeUsed (parsedOnly snap) t = isThemeUsed snap t) ∧
    (∀ name : PyStr,
      lovelaceThemeMatch (parsedOnly snap) name = lovelaceThemeMatch snap name) ∧
    (∀ ct : PyStr,
      checkFrontendResourceUsage (parsedOnly snap) ct =
        checkFrontendResourceUsage snap ct) :=
  ⟨isFrontendResourceUsed_parsedOnly snap, isThemeUsed_parsedOnly snap,
    lovelaceThemeMatch_parsedOnly snap,
    checkFrontendResourceUsage_parsedOnly snap⟩

mutual

/-- A theme occurrence reachable under the amended (restricted) descent is
found by the traversal the code performs. -/
theorem restrictedImpCheck (name : PyStr) :
    (j : Json) → restrictedThemeAppears name j = true →
      checkThemeInLovelace name j = true
  | Json.obj fields => by
    intro h
    simp only [restrictedThemeAppears] at h
    have hf := restrictedImpCheckFields name fields h
    simp only [checkThemeInLovelace, hf, Bool.or_true]
  | Json.null => by intro h; simp [restrictedThemeAppears] at h
  | Json.bool b => by intro h; simp [restrictedThemeAppears] at h
  | Json.num m => by intro h; simp [restrictedThemeAppears] at h
  | Json.str s => by intro h; simp [restrictedThemeAppears] at h
  | Json.arr items => by intro h; simp [restrictedThemeAppears] at h
termination_by structural j => j

/-- Field-traversal case of `restrictedImpCheck`. -/
theorem restrictedImpCheckFields (name : PyStr) :
    (f : JsonFields) → restrictedFieldsAppear name f = true →
      themeFieldsAny name f = true
  | JsonFields.nil => by intro h; simp [restrictedFieldsAppear] at h
  | JsonFields.cons k v t => by
    intro h
    cases v with
    | str s =>
      simp only [restrictedFieldsAppear, Bool.or_eq_true] at h
      simp only [themeFieldsAny, Bool.or_eq_true]
      rcases h with (h1 | h1) | h2
      · exact Or.inl h1
      · exact absurd h1 (by simp)
      · exact Or.inr (restrictedImpCheckFields name t h2)
    | obj g =>
      simp only [restrictedFieldsAppear, Bool.or_eq_true] at h
      simp only [themeFieldsAny, Bool.or_eq_true]
      rcases h with (h1 | h1) | h2
      · exact absurd h1 (by simp)
      · exact Or.inl (restrictedImpCheck name (Json.obj g) h1)
      · exact Or.inr (restrictedImpCheckFields name t h2)
    | arr items =>
      simp only [restrictedFieldsAppear, Bool.or_eq_true] at h
      simp only [themeFieldsAny, Bool.or_eq_true]
      rcases h with (h1 | h1) | h2
      · exact absurd h1 (by simp)
      · exact Or.inl (restrictedImpCheckList name items h1)
      · exact Or.inr (restrictedImpCheckFields name t h2)
    | null =>
      simp only [restrictedFieldsAppear, Bool.or_eq_true] at h
      simp only [themeFieldsAny, Bool.or_eq_true]
      rcases h with (h1 | h1) | h2
      · exact absurd h1 (by simp)
      · exact absurd h1 (by simp)
      · exact Or.inr (restrictedImpCheckFields name t h2)
    | bool b =>
      simp only [restrictedFieldsAppear, Bool.or_eq_true] at h
      simp only [themeFieldsAny, Bool.or_eq_true]
      rcases h with (h1 | h1) | h2
      · exact absurd h1 (by simp)
      · exact absurd h1 (by simp)
      · exact Or.inr (restrictedImpCheckFields name t h2)
    | num m =>
      simp only [restrictedFieldsAppear, Bool.or_eq_true] at h
      simp only [themeFieldsAny, Bool.or_eq_true]
      rcases h with (h1 | h1) | h2
      · exact absurd h1 (by simp)
      · exact absurd h1 (by simp)
      · exact Or.inr (restrictedImpCheckFields name t h2)
termination_by structural f => f

/-- Array-traversal case of `restrictedImpCheck`. -/
theorem restrictedImpCheckList (name : PyStr) :
    (l : JsonList) → restrictedListAppears name l = true →
      themeListAny name l = true
  | JsonList.nil => by intro h; simp [restrictedListAppears] at h
  | JsonList.cons item t => by
    intro h
    cases item with
    | obj g =>
      simp only [restrictedListAppears, Bool.or_eq_true] at h
      simp only [themeListAny, Bool.or_eq_true]
      rcases h with h1 | h2
      · exact Or.inl (restrictedImpCheck name (Json.obj g) h1)
      · exact Or.inr (restrictedImpCheckList name t h2)
    | null =>
      simp only [restrictedListAppears, Bool.or_eq_true] at h
      simp only [themeListAny, Bool.or_eq_true]
      rcases h with h1 | h2
      · exact absurd h1 (by simp)
      · exact Or.inr (restrictedImpCheckList name t h2)
    | bool b =>
      simp only [restrictedListAppears, Bool.or_eq_true] at h
      simp only [themeListAny, Bool.or_eq_true]
      rcases h with h1 | h2
      · exact absurd h1 (by simp)
      · exact Or.inr (restrictedImpCheckList name t h2)
    | num m =>
      simp only [restrictedListAppears, Bool.or_eq_true] at h
      simp only [themeListAny, Bool.or_eq_true]
      rcases h with h1 | h2
      · exact absurd h1 (by simp)
      · exact Or.inr (restrictedImpCheckList name t h2)
    | str s =>
      simp only [restrictedListAppears, Bool.or_eq_true] at h
      simp only [themeListAny, Bool.or_eq_true]
      rcases h with h1 | h2
      · exact absurd h1 (by simp)
      · exact Or.inr (restrictedImpCheckList name t h2)
    | arr items =>
      simp only [restrictedListAppears, Bool.or_eq_true] at h
      simp only [themeListAny, Bool.or_eq_true]
      rcases h with h1 | h2
      · exact absurd h1 (by simp)
      · exact Or.inr (restrictedImpCheckList name t h2)
termination_by structural l => l

end

/-- A restricted occurrence inside the data section makes the per-file
check succeed. -/
theorem restricted_imp_docCheck (name : PyStr) (doc : Json)
    (h : restrictedThemeAppears name (docDataSection doc) = true) :
    themeDocCheck doc name = true := by
  cases doc with
  | obj f =>
    unfold themeDocCheck
    unfold docDataSection at h
    cases hds : (Json.obj f).getD "data".data emptyObj with
    | obj df =>
      rw [hds] at h
      have := restrictedImpCheck name (Json.obj df) h
      simp only [this]
      simp
    | null => rw [hds] at h; simp [restrictedThemeAppears] at h
    | bool b => rw [hds] at h; simp [restrictedThemeAppears] at h
    | num m => rw [hds] at h; simp [restrictedThemeAppears] at h
    | str s => rw [hds] at h; simp [restrictedThemeAppears] at h
    | arr items => rw [hds] at h; simp [restrictedThemeAppears] at h
  | null => simp [docDataSection, emptyObj, restrictedThemeAppears,
      restrictedFieldsAppear] at h
  | bool b => simp [docDataSection, emptyObj, restrictedThemeAppears,
      restrictedFieldsAppear] at h
  | num m => simp [docDataSection, emptyObj, restrictedThemeAppears,
      restrictedFieldsAppear] at h
  | str s => simp [docDataSection, emptyObj, restrictedThemeAppears,
      restrictedFieldsAppear] at h
  | arr items => simp [docDataSection, emptyObj, restrictedThemeAppears,
      restrictedFieldsAppear] at h

/-- If the candidate loop reports no usage, every candidate was
individually rejected. -/
theorem anyThemeUsed_false (snap : Snapshot) :
    ∀ names, anyThemeUsed snap names = .ok false →
      ∀ n ∈ names, checkThemeUsage snap n = .ok false
  | [], _, n, hn => absurd hn (List.not_mem_nil n)
  | m :: rest, h, n, hn => by
    unfold anyThemeUsed at h
    split at h
    · exact absurd h (by simp)
    · exact absurd h (by simp)
    · rename_i hm
      rcases List.mem_cons.mp hn with h' | h'
      · subst h'; exact hm
      · exact anyThemeUsed_false snap rest h n h'

/-- A rejected identifier was rejected by all three stages. -/
theorem checkThemeUsage_false_parts (snap : Snapshot) (name : PyStr)
    (h : checkThemeUsage snap name = .ok false) :
    (∀ cc, loadStorageFile (snap.store "core.config".data) = .ok cc →
      defaultThemeMatches cc name = false) ∧
    (∀ au, loadStorageFile (snap.store "auth".data) = .ok au →
      userThemeMatches au name = false) ∧
    lovelaceThemeMatch snap name = false := by
  unfold checkThemeUsage at h
  split at h
  · exact absurd h (by simp)
  · rename_i cc' hcc
    split at h
    · exact absurd h (by simp)
    · rename_i hdm
      split at h
      · exact absurd h (by simp)
      · rename_i au' hau
        split at h
        · exact absurd h (by simp)
        · rename_i hum
          injection h with h
          refine ⟨?_, ?_, h⟩
          · intro cc hcc2
            rw [hcc] at hcc2
            have he : cc' = cc := by injection hcc2
            rw [← he]
            cases hx : defaultThemeMatches cc' name
            · rfl
            · exact absurd hx hdm
          · intro au hau2
            rw [hau] at hau2
            have he : au' = au := by injection hau2
            rw [← he]
            cases hx : userThemeMatches au' name
            · rfl
            · exact absurd hx hum

/-- Claim C4, counterexample: with a dashboard store whose `theme` key for
`Blackout` sits inside an array nested directly inside an array, the key
occurs at some nesting depth inside the store (spec wording), yet the
theme is classified unused — refuting "a theme key at any nesting depth
makes the theme used". -/
theorem claim4_counterexample :
    specThemeMentioned "Blackout".data arrayNestedDoc = true ∧
    fullDoc (arrayNestedSnapshot.store "lovelace.dash".data) =
      some arrayNestedDoc ∧
    "lovelace.dash".data ∈ themeLovelaceFiles arrayNestedSnapshot ∧
    checkThemeUsage arrayNestedSnapshot "Blackout".data = .ok false ∧
    isThemeUsed arrayNestedSnapshot blackoutTheme = .ok false :=
  ⟨rfl, rfl,
    show _ ∈ ["lovelace.dash".data] from List.mem_singleton.mpr rfl,
    rfl, rfl⟩

/-- Claim C4, amended: a theme whose scan completes is classified used
whenever one of its candidate identifiers equals (case-insensitively) the
recorded default theme, some user's selected theme, or the string value of
a `theme` key inside the data section of a dashboard store that is
reachable by descending through object values and through objects that are
immediate elements of arrays (occurrences inside arrays nested directly in
arrays, or outside the data section, are not detected). -/
theorem claim4_amended_theme_when_used (snap : Snapshot) (theme : ThemeInfo)
    (b : Bool) (name : PyStr)
    (hscan : isThemeUsed snap theme = .ok b)
    (hname : theme.name ≠ [])
    (hcand : name ∈ themeCandidateNames snap theme)
    (hcond :
      (∃ cc, loadStorageFile (snap.store "core.config".data) = .ok cc ∧
        defaultThemeMatches cc name = true) ∨
      (∃ au, loadStorageFile (snap.store "auth".data) = .ok au ∧
        userThemeMatches au name = true) ∨
      (∃ fn doc, fn ∈ themeLovelaceFiles snap ∧
        fullDoc (snap.store fn) = some doc ∧
        restrictedThemeAppears name (docDataSection doc) = true)) :
    b = true := by
  cases b with
  | true => rfl
  | false =>
    exfalso
    unfold isThemeUsed at hscan
    have hne : theme.name.isEmpty = false := by
      cases hh : theme.name.isEmpty
      · rfl
      · exact absurd (List.isEmpty_iff.mp hh) hname
    rw [hne] at hscan
    simp only [Bool.false_eq_true, if_false] at hscan
    have hch := anyThemeUsed_false snap (themeCandidateNames snap theme)
      hscan name hcand
    obtain ⟨hdm, hum, hlm⟩ := checkThemeUsage_false_parts snap name hch
    rcases hcond with ⟨cc, hcc, hmatch⟩ | ⟨au, hau, hmatch⟩ |
      ⟨fn, doc, hfn, hdoc, happ⟩
    · rw [hdm cc hcc] at hmatch
      exact absurd hmatch (by simp)
    · rw [hum au hau] at hmatch
      exact absurd hmatch (by simp)
    · have hdc : themeDocCheck doc name = true :=
        restricted_imp_docCheck name doc happ
      have : lovelaceThemeMatch snap name = true := by
        unfold lovelaceThemeMatch
        rw [List.any_eq_true]
        exact ⟨fn, hfn, by rw [hdoc]; exact hdc⟩
      rw [this] at hlm
      exact absurd hlm (by simp)

/-- Witness for the amended C4 at the default-theme scenario: `Blackout`
matches the recorded default theme `blackout`, and the scan indeed
classifies it used. -/
theorem claim4_witness : (true : Bool) = true :=
  claim4_amended_theme_when_used defaultThemeSnapshot blackoutTheme true
    "Blackout".data rfl (by decide)
    (show _ ∈ ["Blackout".data] from List.mem_singleton.mpr rfl)
    (Or.inl ⟨defaultThemeCoreConfig, rfl, rfl⟩)
